import Mathlib

/-!
# HeatDiffusion-OpenCL: the kernel execution harness and the relaxation driver

A shallow embedding of `Task 1/Attempt 1/simple.c` (the OpenCL harness) and of
the relaxation kernel and driver loop of `Task 2/Attempt 3 - GPU/relax.c`.

* The process-wide variables of `simple.c` form the record `State`; every
  harness function takes the state and returns the new state next to its C
  return value.
* The OpenCL runtime is external.  Every call the harness issues is appended
  to `State.trace`; what the runtime answers (status codes, handles, clock
  readings) is an explicit argument of the function that consumes it.
* `die` only prints to `stderr` (the macro does not exit), so it has no effect
  on the modelled state; diagnostics are not part of the model.
* `kernel_time` and the relaxation vectors are rationals: the arithmetic of
  the C `double`s carried out exactly.
-/

namespace HeatDiffusion

/-! ## C types and constants -/

/-- The C type `cl_int`: an OpenCL status code. -/
abbrev cl_int := Int

/-- The OpenCL status `CL_SUCCESS`. -/
def CL_SUCCESS : cl_int := 0

/-- The OpenCL status `CL_INVALID_PROGRAM_EXECUTABLE`. -/
def CL_INVALID_PROGRAM_EXECUTABLE : cl_int := -45

/-- The OpenCL status `CL_OUT_OF_RESOURCES`. -/
def CL_OUT_OF_RESOURCES : cl_int := -5

/-- The C enum `clarg_type` of `simple.h`; a C enum object holds any `int`, so
the tag of a table entry is an integer. -/
abbrev clarg_type := Int

/-- Enumerator `DoubleArr` of `clarg_type` (value 0). -/
def DoubleArr : clarg_type := 0

/-- Enumerator `FloatArr` of `clarg_type` (value 1). -/
def FloatArr : clarg_type := 1

/-- Enumerator `IntConst` of `clarg_type` (value 2). -/
def IntConst : clarg_type := 2

/-- The macro `MAX_ARG`: the length of the array `kernel_args`. -/
def MAX_ARG : Nat := 10

/-- The value of `sizeof (double)`. -/
def sizeof_double : Nat := 8

/-- The value of `sizeof (float)`. -/
def sizeof_float : Nat := 4

/-- The value of `sizeof (bool)`. -/
def sizeof_bool : Nat := 1

/-- The value of `sizeof (cl_mem)`: a pointer on a 64-bit host. -/
def sizeof_cl_mem : Nat := 8

/-- The value of `sizeof (unsigned int)`. -/
def sizeof_unsigned_int : Nat := 4

/-- Conversion of a C `int` to `size_t` (64 bits): reduction modulo `2^64`. -/
def to_size_t (n : Int) : Nat := (n % (2 ^ 64 : Int)).toNat

/-- The `size_t` product `sz * n` as computed in C: modulo `2^64`. -/
def size_t_mul (sz n : Nat) : Nat := (sz * n) % 2 ^ 64

/-- Conversion of an `unsigned int` to `int` (32 bits, two's complement). -/
def to_int (v : Int) : Int := (v + 2 ^ 31) % 2 ^ 32 - 2 ^ 31

/-- Reading an `int` object as an `unsigned int`: its 32-bit pattern. -/
def to_unsigned_int (v : Int) : Int := v % 2 ^ 32

/-- The C struct `timespec`. -/
structure timespec where
  tv_sec : Int
  tv_nsec : Int
  deriving DecidableEq, Repr

/-- The C struct `kernel_arg` of `simple.c`.  Handles (`cl_mem`) are natural
numbers with `0` for `NULL`; host pointers are addresses. -/
structure kernel_arg where
  arg_t : clarg_type
  dev_buf : Nat
  dhost_buf : Int
  host_buf : Int
  num_elems : Int
  val : Int
  deriving DecidableEq, Repr

/-- The members of `kernel_arg`, to name the target of a store. -/
inductive Field
  | arg_t
  | dev_buf
  | dhost_buf
  | host_buf
  | num_elems
  | val
  deriving DecidableEq, Repr

/-- A call to the OpenCL runtime issued by the harness, with the arguments
that vary between calls, or the `printf` of `printKernelTime` with the fields
it prints. -/
inductive Event
  | clGetPlatformIDs (num_entries : Nat)
  | clGetDeviceIDs (platform : Nat) (devType : Int)
  | clCreateContext (device : Nat)
  | clCreateCommandQueue (context : Nat) (device : Nat)
  | clGetDeviceInfo (device : Nat) (param_name : Nat)
  | clCreateProgramWithSource (source : String)
  | clBuildProgram (program : Nat)
  | clGetProgramBuildInfo (program : Nat)
  | clCreateKernel (program : Nat) (kernel_name : String)
  | clCreateBuffer (bytes : Nat)
  | clEnqueueWriteBuffer (buf : Nat) (bytes : Nat) (host : Int)
  | clEnqueueReadBuffer (buf : Nat) (bytes : Nat) (host : Int)
  | clSetKernelArg (kernel : Nat) (slot : Nat) (size : Nat) (value : Int)
  | clEnqueueNDRangeKernel (kernel : Nat) (dim : Int) (global : List Nat) (loc : List Nat)
  | clFinish
  | clReleaseMemObject (buf : Nat)
  | clReleaseProgram (program : Nat)
  | clReleaseCommandQueue
  | clReleaseContext
  | printf (min : Option Int) (sec : Option Int) (msec : ℚ)
  deriving DecidableEq

/-- The process-wide variables of `simple.c`, with two logs added: `trace`, the
runtime calls issued so far, and `stores`, the members of `kernel_args`
assigned so far.  `kernel_args` is addressed by index; an index of at least
`MAX_ARG` lies past the end of the C array. -/
structure State where
  cpPlatform : Nat
  device_id : Nat
  context : Nat
  commands : Nat
  program : Nat
  num_kernel_args : Int
  kernel_args : Nat → kernel_arg
  start : timespec
  stop : timespec
  kernel_time : ℚ
  trace : List Event
  stores : List (Nat × Field)

/-- The state at program start: C statics are zero-initialised and
`kernel_time` is initialised to `0.0`. -/
def State.init : State where
  cpPlatform := 0
  device_id := 0
  context := 0
  commands := 0
  program := 0
  num_kernel_args := 0
  kernel_args := fun _ => ⟨0, 0, 0, 0, 0, 0⟩
  start := ⟨0, 0⟩
  stop := ⟨0, 0⟩
  kernel_time := 0
  trace := []
  stores := []

/-- Append one runtime call to the log. -/
def State.emit (s : State) (e : Event) : State :=
  { s with trace := s.trace ++ [e] }

/-- The assignment `kernel_args[i].fld = ...`, given as the update `f` of the
entry; the store is logged.  For `i >= MAX_ARG` the C store is past the end of
the array: undefined behaviour, which in a given build may fall on the
variables declared behind `kernel_args` (`start`, `stop`, `kernel_time`).  The
model keeps such a store in a cell of its own and logs it; `Op.execDefined`
treats an operation with such a store as undefined, and the properties of the
other variables are claimed for calls with `num_args <= MAX_ARG` only. -/
def State.store (s : State) (i : Nat) (fld : Field) (f : kernel_arg → kernel_arg) : State :=
  { s with kernel_args := Function.update s.kernel_args i (f (s.kernel_args i)),
           stores := s.stores ++ [(i, fld)] }

/-! ## Device session -/

/-- The OpenCL constant `CL_DEVICE_TYPE_CPU`. -/
def CL_DEVICE_TYPE_CPU : Int := 2

/-- The OpenCL constant `CL_DEVICE_TYPE_GPU`. -/
def CL_DEVICE_TYPE_GPU : Int := 4

/-- The OpenCL constant `CL_DEVICE_NAME`. -/
def CL_DEVICE_NAME : Nat := 0x102B

/-- The OpenCL constant `CL_DEVICE_MAX_WORK_GROUP_SIZE`. -/
def CL_DEVICE_MAX_WORK_GROUP_SIZE : Nat := 0x1004

/-- The OpenCL constant `CL_DEVICE_MAX_WORK_ITEM_SIZES`. -/
def CL_DEVICE_MAX_WORK_ITEM_SIZES : Nat := 0x1005

/-- What the runtime answers during one `initDevice`: status and count of the
first `clGetPlatformIDs`, status and platform array of the second, for the
platform at index `i` the status of `clGetDeviceIDs` and the value it leaves in
`device_id`, and handle and status of `clCreateContext` and of
`clCreateCommandQueue`. -/
structure InitAnswers where
  numPlatforms : cl_int × Nat
  platformIDs : cl_int × (Nat → Nat)
  deviceIDs : Nat → cl_int × Nat
  createContext : Nat × cl_int
  createCommandQueue : Nat × cl_int

/-- The platform loop of `initDevice` from index `i` on, at most `fuel`
iterations (`initDevice` supplies `num_platforms - i` of them); it leaves at
the first platform that has a device of the requested type. -/
def initDevice_loop (r : InitAnswers) (devType : Int) :
    Nat → Nat → cl_int → State → cl_int × State
  | 0, _, err, s => (err, s)
  | fuel + 1, i, _, s =>
    let s := s.emit (Event.clGetDeviceIDs (r.platformIDs.2 i) devType)
    let s := { s with device_id := (r.deviceIDs i).2 }
    let err := (r.deviceIDs i).1
    if err = CL_SUCCESS then (err, { s with cpPlatform := r.platformIDs.2 i })
    else initDevice_loop r devType fuel (i + 1) err s

/-- The function `initDevice`. -/
def initDevice (r : InitAnswers) (devType : Int) (s : State) : cl_int × State :=
  let s := s.emit (Event.clGetPlatformIDs 0)
  let err := r.numPlatforms.1
  if CL_SUCCESS ≠ err then (err, s)
  else
    let num_platforms := r.numPlatforms.2
    let s := s.emit (Event.clGetPlatformIDs num_platforms)
    let err := r.platformIDs.1
    let p := initDevice_loop r devType num_platforms 0 err s
    let err := p.1
    let s := p.2
    if CL_SUCCESS ≠ err then (err, s)
    else
      let s := s.emit (Event.clCreateContext s.device_id)
      let s := { s with context := r.createContext.1 }
      let err := r.createContext.2
      if s.context = 0 ∨ err ≠ CL_SUCCESS then (err, s)
      else
        let s := s.emit (Event.clCreateCommandQueue s.context s.device_id)
        let s := { s with commands := r.createCommandQueue.1 }
        let err := r.createCommandQueue.2
        (err, s)

/-- The function `initCPU`. -/
def initCPU (r : InitAnswers) (s : State) : cl_int × State :=
  initDevice r CL_DEVICE_TYPE_CPU s

/-- The function `initGPU`. -/
def initGPU (r : InitAnswers) (s : State) : cl_int × State :=
  initDevice r CL_DEVICE_TYPE_GPU s

/-- The function `maxWorkItems`; `err` and `max` are the status and the array
`clGetDeviceInfo` answers. -/
def maxWorkItems (err : cl_int) (max : Nat → Nat) (dim : Int) (s : State) : Nat × State :=
  if dim ≥ 0 ∧ dim < 3 then
    let s := s.emit (Event.clGetDeviceInfo s.device_id CL_DEVICE_MAX_WORK_ITEM_SIZES)
    if CL_SUCCESS ≠ err then (0, s) else (max dim.toNat, s)
  else (0, s)

/-- The function `clPrintDevInfo`: three queries, whose answers are printed
(the text printed is not modelled). -/
def clPrintDevInfo (s : State) : State :=
  let s := s.emit (Event.clGetDeviceInfo s.device_id CL_DEVICE_NAME)
  let s := s.emit (Event.clGetDeviceInfo s.device_id CL_DEVICE_MAX_WORK_GROUP_SIZE)
  s.emit (Event.clGetDeviceInfo s.device_id CL_DEVICE_MAX_WORK_ITEM_SIZES)

/-! ## Buffer transfer layer -/

/-- The function `allocDev`: `clCreateBuffer` for `n` bytes; `mem` is the
handle the runtime returns (its status only feeds a diagnostic). -/
def allocDev (mem : Nat) (n : Nat) (s : State) : Nat × State :=
  (mem, s.emit (Event.clCreateBuffer n))

/-- The function `host2devDoubleArr`: a blocking write of `sizeof (double) * n`
bytes; the status of the write only feeds a diagnostic. -/
def host2devDoubleArr (a : Int) (ad : Nat) (n : Nat) (s : State) : State :=
  s.emit (Event.clEnqueueWriteBuffer ad (size_t_mul sizeof_double n) a)

/-- The function `host2devFloatArr`. -/
def host2devFloatArr (a : Int) (ad : Nat) (n : Nat) (s : State) : State :=
  s.emit (Event.clEnqueueWriteBuffer ad (size_t_mul sizeof_float n) a)

/-- The function `dev2hostDoubleArr`: a blocking read of `sizeof (double) * n`
bytes; the status of the read only feeds a diagnostic. -/
def dev2hostDoubleArr (ad : Nat) (a : Int) (n : Nat) (s : State) : State :=
  s.emit (Event.clEnqueueReadBuffer ad (size_t_mul sizeof_double n) a)

/-- The function `dev2hostFloatArr`. -/
def dev2hostFloatArr (ad : Nat) (a : Int) (n : Nat) (s : State) : State :=
  s.emit (Event.clEnqueueReadBuffer ad (size_t_mul sizeof_float n) a)

/-- The function `dev2hostBoolArr`. -/
def dev2hostBoolArr (ad : Nat) (a : Int) (n : Nat) (s : State) : State :=
  s.emit (Event.clEnqueueReadBuffer ad (size_t_mul sizeof_bool n) a)

/-! ## Dispatcher and result sync -/

/-- What the environment answers during one `launchKernel`: the two clock
readings and the statuses of `clEnqueueNDRangeKernel` and `clFinish`. -/
structure LaunchAnswers where
  start : timespec
  enqueue : cl_int
  finish : cl_int
  stop : timespec

/-- The function `launchKernel`. -/
def launchKernel (r : LaunchAnswers) (kernel : Nat) (dim : Int) (global loc : List Nat)
    (s : State) : cl_int × State :=
  let s := { s with start := r.start }
  let s := s.emit (Event.clEnqueueNDRangeKernel kernel dim global loc)
  let s := s.emit Event.clFinish
  let err := r.finish
  let s := { s with stop := r.stop }
  let s := { s with kernel_time := s.kernel_time
              + (((s.stop.tv_sec - s.start.tv_sec : Int) : ℚ) * 1000
                 + ((s.stop.tv_nsec - s.start.tv_nsec : Int) : ℚ) / 1000000) }
  (err, s)

/-- The body of the copy-back loop of `runKernel` for index `i`. -/
def runKernel_body (s : State) (i : Nat) : State :=
  if (s.kernel_args i).arg_t = DoubleArr then
    dev2hostDoubleArr (s.kernel_args i).dev_buf (s.kernel_args i).dhost_buf
      (to_size_t (s.kernel_args i).num_elems) s
  else if (s.kernel_args i).arg_t = FloatArr then
    dev2hostFloatArr (s.kernel_args i).dev_buf (s.kernel_args i).host_buf
      (to_size_t (s.kernel_args i).num_elems) s
  else s

/-- The function `runKernel`: the status of `launchKernel` is dropped, `err`
keeps its initial value. -/
def runKernel (r : LaunchAnswers) (kernel : Nat) (dim : Int) (global loc : List Nat)
    (s : State) : cl_int × State :=
  let err := CL_SUCCESS
  let s := (launchKernel r kernel dim global loc s).2
  let s := (List.range s.num_kernel_args.toNat).foldl runKernel_body s
  (err, s)

/-- The function `printKernelTime`.  `(int)x` truncates towards zero and `/`
on `int`s is truncating division; the branch taken decides which of `min` and
`sec` are printed (`none` for a field that is not printed). -/
def printKernelTime (s : State) : State :=
  let min : Int := (if 0 ≤ s.kernel_time then ⌊s.kernel_time⌋ else ⌈s.kernel_time⌉).tdiv 60000
  let sec : Int :=
    (if 0 ≤ s.kernel_time - ((min * 60000 : Int) : ℚ)
      then ⌊s.kernel_time - ((min * 60000 : Int) : ℚ)⌋
      else ⌈s.kernel_time - ((min * 60000 : Int) : ℚ)⌉).tdiv 1000
  let msec : ℚ := s.kernel_time - ((min * 60000 : Int) : ℚ) - ((sec * 1000 : Int) : ℚ)
  if s.kernel_time > 60000 then
    s.emit (Event.printf (some min) (some sec) msec)
  else if s.kernel_time > 1000 then
    s.emit (Event.printf none (some sec) msec)
  else
    s.emit (Event.printf none none msec)

/-- The body of the loop of `release` for index `i`; `rel i` is the status
`clReleaseMemObject` answers for the buffer of entry `i`. -/
def release_body (rel : Nat → cl_int) (p : cl_int × State) (i : Nat) : cl_int × State :=
  if (p.2.kernel_args i).arg_t = FloatArr ∨ (p.2.kernel_args i).arg_t = DoubleArr then
    (rel i, p.2.emit (Event.clReleaseMemObject (p.2.kernel_args i).dev_buf))
  else p

/-- The function `release`. -/
def release (rel : Nat → cl_int) (s : State) : cl_int × State :=
  (List.range s.num_kernel_args.toNat).foldl (release_body rel) (CL_SUCCESS, s)

/-- The function `freeDevice`: `err` is assigned the status of each of the
three release calls in turn (`r1`, `r2`, `r3`), so the last one is returned. -/
def freeDevice (_r1 _r2 r3 : cl_int) (s : State) : cl_int × State :=
  let s := s.emit (Event.clReleaseProgram s.program)
  let s := s.emit Event.clReleaseCommandQueue
  let s := s.emit Event.clReleaseContext
  (r3, s)

/-! ## Program/kernel builder and argument binder -/

/-- What the runtime answers during one `setupKernel` (or `createKernel`):
the handle and status of `clCreateProgramWithSource`, the status of
`clBuildProgram`, the handle and status of `clCreateKernel`, and, for the
descriptor bound to slot `i`, the handle of its `clCreateBuffer` and the
status of its `clSetKernelArg`. -/
structure SetupAnswers where
  createProgram : Nat × cl_int
  buildProgram : cl_int
  createKernel : Nat × cl_int
  createBuffer : Nat → Nat
  setKernelArg : Nat → cl_int

/-- The function `createKernel`.  A failed build is reported and execution
continues with `clCreateKernel`. -/
def createKernel (r : SetupAnswers) (kernel_source kernel_name : String) (s : State) :
    Nat × State :=
  let s := s.emit (Event.clCreateProgramWithSource kernel_source)
  let s := { s with program := r.createProgram.1 }
  let s := s.emit (Event.clBuildProgram s.program)
  let s := if r.buildProgram ≠ CL_SUCCESS then s.emit (Event.clGetProgramBuildInfo s.program) else s
  let s := s.emit (Event.clCreateKernel s.program kernel_name)
  let kernel := r.createKernel.1
  let err := r.createKernel.2
  let kernel := if kernel = 0 ∨ err ≠ CL_SUCCESS then 0 else kernel
  (kernel, s)

/-- The C type `va_list`: the variadic arguments not yet read, one machine
word each (an `int`, an `unsigned int` or a pointer), as an unbounded area of
which the caller filled in a prefix. -/
abbrev va_list := Nat → Int

/-- The macro `va_arg`: the next word and the advanced list. -/
def va_arg (ap : va_list) : Int × va_list := (ap 0, fun k => ap (k + 1))

/-- The body of the loop of `setupKernel` for index `i`: the `switch` on the
tag just read.  Returns the kernel (`0` once a bind failed), the advanced
argument list and the state. -/
def setupKernel_body (r : SetupAnswers) (i : Nat) (kernel : Nat) (ap : va_list) (s : State) :
    Nat × va_list × State :=
  let (tag, ap) := va_arg ap
  let s := s.store i Field.arg_t (fun e => { e with arg_t := tag })
  if (s.kernel_args i).arg_t = DoubleArr then
    let (n, ap) := va_arg ap
    let s := s.store i Field.num_elems (fun e => { e with num_elems := n })
    let (p, ap) := va_arg ap
    let s := s.store i Field.dhost_buf (fun e => { e with dhost_buf := p })
    let (mem, s) := allocDev (r.createBuffer i)
      (size_t_mul sizeof_double (to_size_t (s.kernel_args i).num_elems)) s
    let s := s.store i Field.dev_buf (fun e => { e with dev_buf := mem })
    let s := host2devDoubleArr (s.kernel_args i).dhost_buf (s.kernel_args i).dev_buf
      (to_size_t (s.kernel_args i).num_elems) s
    let s := s.emit (Event.clSetKernelArg kernel i sizeof_cl_mem (s.kernel_args i).dev_buf)
    let err := r.setKernelArg i
    (if CL_SUCCESS ≠ err then 0 else kernel, ap, s)
  else if (s.kernel_args i).arg_t = FloatArr then
    let (n, ap) := va_arg ap
    let s := s.store i Field.num_elems (fun e => { e with num_elems := n })
    let (p, ap) := va_arg ap
    let s := s.store i Field.host_buf (fun e => { e with host_buf := p })
    let (mem, s) := allocDev (r.createBuffer i)
      (size_t_mul sizeof_float (to_size_t (s.kernel_args i).num_elems)) s
    let s := s.store i Field.dev_buf (fun e => { e with dev_buf := mem })
    let s := host2devFloatArr (s.kernel_args i).host_buf (s.kernel_args i).dev_buf
      (to_size_t (s.kernel_args i).num_elems) s
    let s := s.emit (Event.clSetKernelArg kernel i sizeof_cl_mem (s.kernel_args i).dev_buf)
    let err := r.setKernelArg i
    (if CL_SUCCESS ≠ err then 0 else kernel, ap, s)
  else if (s.kernel_args i).arg_t = IntConst then
    let (v, ap) := va_arg ap
    let s := s.store i Field.val (fun e => { e with val := to_int v })
    let s := s.emit (Event.clSetKernelArg kernel i sizeof_unsigned_int
      (to_unsigned_int (s.kernel_args i).val))
    let err := r.setKernelArg i
    (if CL_SUCCESS ≠ err then 0 else kernel, ap, s)
  else
    (0, ap, s)

/-- The `for` loop of `setupKernel`, from index `i` on: it runs while
`i < num_args` and `kernel != NULL`.  `fuel` bounds the number of iterations;
`setupKernel` supplies `num_args` of them, which is all the loop can make. -/
def setupKernel_loop (r : SetupAnswers) (num_args : Int) :
    Nat → Nat → Nat → va_list → State → Nat × State
  | 0, _, kernel, _, s => (kernel, s)
  | fuel + 1, i, kernel, ap, s =>
    if (i : Int) < num_args ∧ kernel ≠ 0 then
      let (kernel, ap, s) := setupKernel_body r i kernel ap s
      setupKernel_loop r num_args fuel (i + 1) kernel ap s
    else (kernel, s)

/-- The function `setupKernel`. -/
def setupKernel (r : SetupAnswers) (kernel_source kernel_name : String) (num_args : Int)
    (ap : va_list) (s : State) : Nat × State :=
  let (kernel, s) := createKernel r kernel_source kernel_name s
  let s := { s with num_kernel_args := num_args }
  setupKernel_loop r num_args num_args.toNat 0 kernel ap s

/-- The time a line printed by `printKernelTime` stands for, in milliseconds:
`60000 * min + 1000 * sec + msec`, a field that is not printed counting as `0`. -/
def Event.printedTotal : Event → ℚ
  | printf min sec msec => 60000 * ((min.getD 0 : Int) : ℚ) + 1000 * ((sec.getD 0 : Int) : ℚ) + msec
  | _ => 0

/-! ## Argument descriptors, as a caller writes them -/

/-- The C macro `va_start` seen from the caller: the words `ws` the caller
passed, followed by whatever the argument area holds after them. -/
def va_start : List Int → va_list → va_list
  | [], rest => rest
  | w :: ws, rest => fun k =>
    match k with
    | 0 => w
    | k + 1 => va_start ws rest k

/-- One legal argument set of `setupKernel` (`simple.h`): a tag followed by
`num_elems` and a pointer, or by a number. -/
inductive Descriptor
  | doubleArr (num_elems : Int) (pointer : Int)
  | floatArr (num_elems : Int) (pointer : Int)
  | intConst (number : Int)
  deriving DecidableEq, Repr

/-- The words a descriptor occupies in the variadic argument list. -/
def Descriptor.words : Descriptor → List Int
  | doubleArr n p => [DoubleArr, n, p]
  | floatArr n p => [FloatArr, n, p]
  | intConst v => [IntConst, v]

/-- The words of a sequence of descriptors. -/
def Descriptor.encode (ds : List Descriptor) : List Int :=
  ds.flatMap Descriptor.words

/-- Whether the descriptor is an array descriptor. -/
def Descriptor.isArr : Descriptor → Bool
  | doubleArr _ _ => true
  | floatArr _ _ => true
  | intConst _ => false

/-- The values of a descriptor lie in the range of their C types: `num_elems`
is an `int`, the number of an `IntConst` an `unsigned int`. -/
def Descriptor.inRange : Descriptor → Prop
  | doubleArr n _ => -2 ^ 31 ≤ n ∧ n < 2 ^ 31
  | floatArr n _ => -2 ^ 31 ≤ n ∧ n < 2 ^ 31
  | intConst v => 0 ≤ v ∧ v < 2 ^ 32

/-- The element count of an array descriptor is not negative. -/
def Descriptor.nonneg : Descriptor → Prop
  | doubleArr n _ => 0 ≤ n
  | floatArr n _ => 0 ≤ n
  | intConst _ => True

/-- The runtime calls `setupKernel` issues for descriptor `d` at index `i`,
with the byte counts as the C expressions compute them. -/
def Descriptor.bindTrace (r : SetupAnswers) (kernel i : Nat) : Descriptor → List Event
  | doubleArr n p =>
    [Event.clCreateBuffer (size_t_mul sizeof_double (to_size_t n)),
     Event.clEnqueueWriteBuffer (r.createBuffer i) (size_t_mul sizeof_double (to_size_t n)) p,
     Event.clSetKernelArg kernel i sizeof_cl_mem (r.createBuffer i)]
  | floatArr n p =>
    [Event.clCreateBuffer (size_t_mul sizeof_float (to_size_t n)),
     Event.clEnqueueWriteBuffer (r.createBuffer i) (size_t_mul sizeof_float (to_size_t n)) p,
     Event.clSetKernelArg kernel i sizeof_cl_mem (r.createBuffer i)]
  | intConst v =>
    [Event.clSetKernelArg kernel i sizeof_unsigned_int (to_unsigned_int (to_int v))]

/-- The binding of descriptor `d` to slot `i` in the words of the
specification: an array descriptor is one allocation of `elementCount ×
elementSize` bytes, a copy of that many bytes from the host pointer into the
buffer allocated, and a bind of the buffer handle; a scalar descriptor is a
bind of its value alone. -/
def Descriptor.specTrace (r : SetupAnswers) (kernel i : Nat) : Descriptor → List Event
  | doubleArr n p =>
    [Event.clCreateBuffer (8 * n.toNat),
     Event.clEnqueueWriteBuffer (r.createBuffer i) (8 * n.toNat) p,
     Event.clSetKernelArg kernel i 8 (r.createBuffer i)]
  | floatArr n p =>
    [Event.clCreateBuffer (4 * n.toNat),
     Event.clEnqueueWriteBuffer (r.createBuffer i) (4 * n.toNat) p,
     Event.clSetKernelArg kernel i 8 (r.createBuffer i)]
  | intConst v => [Event.clSetKernelArg kernel i 4 v]

/-- The members of `kernel_args[i]` that `setupKernel` assigns for a
descriptor, in order. -/
def Descriptor.bindStores (i : Nat) : Descriptor → List (Nat × Field)
  | doubleArr _ _ =>
    [(i, Field.arg_t), (i, Field.num_elems), (i, Field.dhost_buf), (i, Field.dev_buf)]
  | floatArr _ _ =>
    [(i, Field.arg_t), (i, Field.num_elems), (i, Field.host_buf), (i, Field.dev_buf)]
  | intConst _ => [(i, Field.arg_t), (i, Field.val)]

/-- The calls of `ds`, bound to the slots `i`, `i + 1`, ... -/
def bindTraceFrom (r : SetupAnswers) (kernel : Nat) : Nat → List Descriptor → List Event
  | _, [] => []
  | i, d :: ds => d.bindTrace r kernel i ++ bindTraceFrom r kernel (i + 1) ds

/-- The specification's calls of `ds`, bound to the slots `i`, `i + 1`, ... -/
def specTraceFrom (r : SetupAnswers) (kernel : Nat) : Nat → List Descriptor → List Event
  | _, [] => []
  | i, d :: ds => d.specTrace r kernel i ++ specTraceFrom r kernel (i + 1) ds

/-- The stores of `ds`, into the entries `i`, `i + 1`, ... -/
def bindStoresFrom : Nat → List Descriptor → List (Nat × Field)
  | _, [] => []
  | i, d :: ds => d.bindStores i ++ bindStoresFrom (i + 1) ds

/-- The table entry `e` after `setupKernel` has stored descriptor `d` in it,
`i` being its index. -/
def Descriptor.entry (r : SetupAnswers) (i : Nat) (e : kernel_arg) : Descriptor → kernel_arg
  | doubleArr n p =>
    { e with arg_t := DoubleArr, num_elems := n, dhost_buf := p, dev_buf := r.createBuffer i }
  | floatArr n p =>
    { e with arg_t := FloatArr, num_elems := n, host_buf := p, dev_buf := r.createBuffer i }
  | intConst v => { e with arg_t := IntConst, val := to_int v }

/-- The state after descriptor `d` has been processed at index `i`. -/
def Descriptor.bound (r : SetupAnswers) (kernel i : Nat) (d : Descriptor) (s : State) : State :=
  { s with kernel_args := Function.update s.kernel_args i (d.entry r i (s.kernel_args i)),
           trace := s.trace ++ d.bindTrace r kernel i,
           stores := s.stores ++ d.bindStores i }

/-- The state after the descriptors `ds` have been processed at the indices
`i`, `i + 1`, ... -/
def boundFrom (r : SetupAnswers) (kernel : Nat) : Nat → List Descriptor → State → State
  | _, [], s => s
  | i, d :: ds, s => boundFrom r kernel (i + 1) ds (d.bound r kernel i s)

/-- What stands at the index where a bind fails: a legal argument set whose
`clSetKernelArg` the runtime rejects, or a tag that is none of `DoubleArr`,
`FloatArr` and `IntConst`. -/
inductive Failing
  | rejected (d : Descriptor)
  | illegal (tag : Int)

/-- The words of the failing group. -/
def Failing.words : Failing → List Int
  | rejected d => d.words
  | illegal tag => [tag]

/-- The bind at index `i` fails. -/
def Failing.fails (r : SetupAnswers) (i : Nat) : Failing → Prop
  | rejected _ => r.setKernelArg i ≠ CL_SUCCESS
  | illegal tag => tag ≠ DoubleArr ∧ tag ≠ FloatArr ∧ tag ≠ IntConst

/-- The state after the failing group has been processed at index `i`. -/
def Failing.bound (r : SetupAnswers) (kernel i : Nat) : Failing → State → State
  | rejected d, s => d.bound r kernel i s
  | illegal tag, s => s.store i Field.arg_t (fun e => { e with arg_t := tag })

/-- The runtime calls issued for the failing group at index `i`. -/
def Failing.bindTrace (r : SetupAnswers) (kernel i : Nat) : Failing → List Event
  | rejected d => d.bindTrace r kernel i
  | illegal _ => []

/-- The members of `kernel_args[i]` assigned for the failing group. -/
def Failing.bindStores (i : Nat) : Failing → List (Nat × Field)
  | rejected d => d.bindStores i
  | illegal _ => [(i, Field.arg_t)]

/-- The runtime calls of `createKernel`. -/
def createKernelTrace (r : SetupAnswers) (kernel_source kernel_name : String) : List Event :=
  [Event.clCreateProgramWithSource kernel_source, Event.clBuildProgram r.createProgram.1]
    ++ (if r.buildProgram ≠ CL_SUCCESS then [Event.clGetProgramBuildInfo r.createProgram.1] else [])
    ++ [Event.clCreateKernel r.createProgram.1 kernel_name]

/-- Whether an event allocates a device buffer. -/
def Event.isAlloc : Event → Bool
  | clCreateBuffer _ => true
  | _ => false

/-- Whether an event allocates, transfers or binds an argument. -/
def Event.isArgumentCall : Event → Bool
  | clCreateBuffer _ => true
  | clEnqueueWriteBuffer _ _ _ => true
  | clSetKernelArg _ _ _ _ => true
  | _ => false

/-- The device-to-host copy `runKernel` issues for a table entry, if any. -/
def kernel_arg.copyBack (e : kernel_arg) : Option Event :=
  if e.arg_t = DoubleArr then
    some (Event.clEnqueueReadBuffer e.dev_buf
      (size_t_mul sizeof_double (to_size_t e.num_elems)) e.dhost_buf)
  else if e.arg_t = FloatArr then
    some (Event.clEnqueueReadBuffer e.dev_buf
      (size_t_mul sizeof_float (to_size_t e.num_elems)) e.host_buf)
  else none

/-! ## Sequences of harness operations -/

/-- One call of a harness function by the host program, with its arguments
and with what the environment answers during the call. -/
inductive Op
  | initCPU (r : InitAnswers)
  | initGPU (r : InitAnswers)
  | maxWorkItems (err : cl_int) (max : Nat → Nat) (dim : Int)
  | allocDev (mem : Nat) (n : Nat)
  | host2devDoubleArr (a : Int) (ad : Nat) (n : Nat)
  | host2devFloatArr (a : Int) (ad : Nat) (n : Nat)
  | dev2hostDoubleArr (ad : Nat) (a : Int) (n : Nat)
  | dev2hostFloatArr (ad : Nat) (a : Int) (n : Nat)
  | dev2hostBoolArr (ad : Nat) (a : Int) (n : Nat)
  | createKernel (r : SetupAnswers) (kernel_source kernel_name : String)
  | setupKernel (r : SetupAnswers) (kernel_source kernel_name : String) (num_args : Int)
      (ap : va_list)
  | launchKernel (r : LaunchAnswers) (kernel : Nat) (dim : Int) (global loc : List Nat)
  | runKernel (r : LaunchAnswers) (kernel : Nat) (dim : Int) (global loc : List Nat)
  | printKernelTime
  | release (rel : Nat → cl_int)
  | freeDevice (r1 r2 r3 : cl_int)
  | clPrintDevInfo

/-- The state after one operation. -/
def Op.exec (s : State) : Op → State
  | initCPU r => (HeatDiffusion.initCPU r s).2
  | initGPU r => (HeatDiffusion.initGPU r s).2
  | maxWorkItems err max dim => (HeatDiffusion.maxWorkItems err max dim s).2
  | allocDev mem n => (HeatDiffusion.allocDev mem n s).2
  | host2devDoubleArr a ad n => HeatDiffusion.host2devDoubleArr a ad n s
  | host2devFloatArr a ad n => HeatDiffusion.host2devFloatArr a ad n s
  | dev2hostDoubleArr ad a n => HeatDiffusion.dev2hostDoubleArr ad a n s
  | dev2hostFloatArr ad a n => HeatDiffusion.dev2hostFloatArr ad a n s
  | dev2hostBoolArr ad a n => HeatDiffusion.dev2hostBoolArr ad a n s
  | createKernel r src name => (HeatDiffusion.createKernel r src name s).2
  | setupKernel r src name num_args ap => (HeatDiffusion.setupKernel r src name num_args ap s).2
  | launchKernel r kernel dim global loc => (HeatDiffusion.launchKernel r kernel dim global loc s).2
  | runKernel r kernel dim global loc => (HeatDiffusion.runKernel r kernel dim global loc s).2
  | printKernelTime => HeatDiffusion.printKernelTime s
  | release rel => (HeatDiffusion.release rel s).2
  | freeDevice r1 r2 r3 => (HeatDiffusion.freeDevice r1 r2 r3 s).2
  | clPrintDevInfo => HeatDiffusion.clPrintDevInfo s

/-- The state after a sequence of operations. -/
def execAll (s : State) (ops : List Op) : State :=
  ops.foldl Op.exec s

/-- Whether the operation keeps to the capacity of the table: a `setupKernel`
has `num_args <= MAX_ARG`.  Only then do all its stores fall inside
`kernel_args`. -/
def Op.withinCapacity : Op → Bool
  | setupKernel _ _ _ num_args _ => decide (num_args ≤ MAX_ARG)
  | _ => true

/-- Whether the operation, run from `s`, keeps every store it makes inside the
array `kernel_args`, that is at an index below `MAX_ARG`. -/
def Op.inBounds (s : State) (op : Op) : Bool :=
  ((op.exec s).stores.drop s.stores.length).all (fun x => decide (x.1 < MAX_ARG))

/-- The state after one operation, with undefined behaviour made explicit:
`none` when the operation stores past the end of `kernel_args`, after which C
defines no state of the program (the store may fall on the variables declared
behind the array). -/
def Op.execDefined (s : State) (op : Op) : Option State :=
  if op.inBounds s then some (op.exec s) else none

/-- The state after a sequence of operations, `none` when one of them is
undefined. -/
def execAllDefined (s : State) : List Op → Option State
  | [] => some s
  | op :: ops => (op.execDefined s).bind (fun s' => execAllDefined s' ops)

/-- The duration of one dispatch in milliseconds, from its two clock
readings: `(stop.sec - start.sec) * 1000 + (stop.nsec - start.nsec) / 1000000`. -/
def duration (start stop : timespec) : ℚ :=
  ((stop.tv_sec : ℚ) - start.tv_sec) * 1000 + ((stop.tv_nsec : ℚ) - start.tv_nsec) / 1000000

/-- The duration of an operation that is a dispatch (`launchKernel` or
`runKernel`), taken from the clock readings of that call; no value for any
other operation. -/
def Op.dispatchDuration : Op → Option ℚ
  | launchKernel r _ _ _ _ => some (duration r.start r.stop)
  | runKernel r _ _ _ _ => some (duration r.start r.stop)
  | _ => none

/-! ## The relaxation kernel and its driver (`relax.c`) -/

/-- The macro `EPS` of `relax.c`. -/
def EPS : ℚ := 0.1

/-- The macro `HEAT` of `relax.c`. -/
def HEAT : ℚ := 100.0

/-- The array access `v[i]` on a vector held as a list. -/
def at_ (v : List ℚ) (i : Nat) : ℚ := v.getD i 0

/-- The function `init` for a vector of length `n`, with the macro `HEAT` as
the parameter `heat`: `out[0] = HEAT` and `out[i] = 0` for `1 <= i < n`. -/
def init (heat : ℚ) (n : Nat) : List ℚ :=
  (List.range n).map fun i => if i = 0 then heat else 0

/-- The value work-item `i` of the kernel `relax` stores to `out[i]`, for the
global size `n`. -/
def relax_out (inp : List ℚ) (n : Nat) (i : Nat) : ℚ :=
  if i > 0 ∧ (i : Int) < (n : Int) - 1 then
    0.25 * at_ inp (i - 1) + 0.5 * at_ inp i + 0.25 * at_ inp (i + 1)
  else at_ inp i

/-- Whether work-item `i` of `relax` stores `false` to `stable[0]`:
`fabs(in[i] - out[i]) > eps`. -/
def relax_clears (inp : List ℚ) (eps : ℚ) (n : Nat) (i : Nat) : Bool :=
  decide (|at_ inp i - relax_out inp n i| > eps)

/-- One launch of `relax` over the global size `n`: the vector `out`, and
`stable[0]` once all work-items have run, the store `stable[0] = true` of
work-item `0` taken to precede every store of `false`; so the flag ends
`true` exactly when no work-item saw a change of more than `eps`. -/
def relax (inp : List ℚ) (eps : ℚ) (n : Nat) : List ℚ × Bool :=
  ((List.range n).map (relax_out inp n), (List.range n).all fun i => !relax_clears inp eps n i)

/-- The vector is non-increasing over the indices below `n`. -/
def NonIncreasing (v : List ℚ) (n : Nat) : Prop :=
  ∀ i, i + 1 < n → at_ v (i + 1) ≤ at_ v i

/-! ## Buffer release and table contents -/

/-- The OpenCL status `CL_INVALID_WORK_GROUP_SIZE`. -/
def CL_INVALID_WORK_GROUP_SIZE : cl_int := -54

/-- The OpenCL status `CL_INVALID_MEM_OBJECT`. -/
def CL_INVALID_MEM_OBJECT : cl_int := -38

/-- Whether `release` releases the buffer of a table entry: its tag is
`FloatArr` or `DoubleArr`. -/
def kernel_arg.isArr (e : kernel_arg) : Bool :=
  decide (e.arg_t = FloatArr ∨ e.arg_t = DoubleArr)

/-- The call `release` issues for a table entry, if any. -/
def kernel_arg.releaseCall (e : kernel_arg) : Option Event :=
  if e.arg_t = FloatArr ∨ e.arg_t = DoubleArr then some (Event.clReleaseMemObject e.dev_buf)
  else none

/-- The calls one `release` issues on the table of `s`: those of the entries
`0 .. num_kernel_args - 1`, in index order. -/
def State.releaseCalls (s : State) : List Event :=
  (List.range s.num_kernel_args.toNat).filterMap (fun i => (s.kernel_args i).releaseCall)

/-- The index of the last entry among `0 .. num_kernel_args - 1` whose buffer
`release` releases, if there is one. -/
def State.lastArr (s : State) : Option Nat :=
  ((List.range s.num_kernel_args.toNat).filter (fun i => (s.kernel_args i).isArr)).getLast?

/-- What `runKernel` and `release` read of a table entry: its tag and, under
an array tag, the device buffer, the host pointer that belongs to the tag and
the element count. -/
def kernel_arg.consumed (e : kernel_arg) : clarg_type × Option (Nat × Int × Int) :=
  if e.arg_t = DoubleArr then (e.arg_t, some (e.dev_buf, e.dhost_buf, e.num_elems))
  else if e.arg_t = FloatArr then (e.arg_t, some (e.dev_buf, e.host_buf, e.num_elems))
  else (e.arg_t, none)

/-- What descriptor `d`, bound at index `i`, puts in the members that
`runKernel` and `release` read: its own tag, and for an array the buffer
allocated for it, its pointer and its element count. -/
def Descriptor.consumed (r : SetupAnswers) (i : Nat) : Descriptor →
    clarg_type × Option (Nat × Int × Int)
  | doubleArr n p => (DoubleArr, some (r.createBuffer i, p, n))
  | floatArr n p => (FloatArr, some (r.createBuffer i, p, n))
  | intConst _ => (IntConst, none)

/-! ## Concrete inputs -/

/-- A table of three entries: a double array, an integer constant and a float
array. -/
def table3 : State :=
  { State.init with
    num_kernel_args := 3
    kernel_args := fun i =>
      if i = 0 then ⟨DoubleArr, 11, 1000, 0, 10, 0⟩
      else if i = 1 then ⟨IntConst, 0, 0, 0, 0, 10⟩
      else if i = 2 then ⟨FloatArr, 12, 0, 2000, 5, 0⟩
      else ⟨0, 0, 0, 0, 0, 0⟩ }

/-- Answers of a runtime on which everything succeeds: program `1`, kernel
`7`, buffer `100 + i` for slot `i`. -/
def answersOk : SetupAnswers :=
  { createProgram := (1, CL_SUCCESS), buildProgram := CL_SUCCESS,
    createKernel := (7, CL_SUCCESS), createBuffer := fun i => 100 + i,
    setKernelArg := fun _ => CL_SUCCESS }

/-- Answers of a runtime on which the build fails and `clCreateKernel`
consequently fails with `CL_INVALID_PROGRAM_EXECUTABLE`. -/
def answersBuildFails : SetupAnswers :=
  { answersOk with buildProgram := -11, createKernel := (0, CL_INVALID_PROGRAM_EXECUTABLE) }

/-- Answers of a runtime that rejects the bind of slot `1`. -/
def answersReject1 : SetupAnswers :=
  { answersOk with setKernelArg := fun i => if i = 1 then -50 else CL_SUCCESS }

/-- Eleven integer constants: one more than `MAX_ARG`. -/
def elevenConsts : List Descriptor := List.replicate 11 (Descriptor.intConst 5)

/-- The argument sets of a kernel over two double vectors and a length. -/
def threeArgs : List Descriptor :=
  [Descriptor.doubleArr 10 1000, Descriptor.doubleArr 10 2000, Descriptor.intConst 10]

/-- The argument list of the call
`setupKernel (src, name, 3, DoubleArr, 10, a, DoubleArr, 10, b, IntConst, 10)`. -/
def threeArgsList : va_list := va_start (Descriptor.encode threeArgs) (fun _ => 0)

/-- The argument list of a call with eleven `IntConst` argument sets. -/
def elevenConstsList : va_list := va_start (Descriptor.encode elevenConsts) (fun _ => 0)

/-- Three integer constants. -/
def threeConsts : List Descriptor :=
  [Descriptor.intConst 1, Descriptor.intConst 2, Descriptor.intConst 3]

/-- The argument list of the call
`setupKernel (src, name, 3, IntConst, 1, IntConst, 2, IntConst, 3)`. -/
def threeConstsList : va_list := va_start (Descriptor.encode threeConsts) (fun _ => 0)

/-- The state after a first, successful bind of `threeArgs`. -/
def afterFirstBind : State :=
  (setupKernel answersOk "relax" "relax" 3 threeArgsList State.init).2

/-- A second bind, of `threeConsts`, whose kernel creation fails: the kernel
returned and the state it leaves. -/
def failedSecondBind : Nat × State :=
  setupKernel answersBuildFails "relax(" "relax" 3 threeConstsList afterFirstBind

/-- A session within capacity: a bind of three arguments, a run that takes
one second, a report, a launch that takes half a second, a release and the
teardown. -/
def session : List Op :=
  [Op.setupKernel answersOk "relax" "relax" 3 threeArgsList,
   Op.runKernel ⟨⟨5, 0⟩, 0, 0, ⟨6, 0⟩⟩ 7 1 [10] [1],
   Op.printKernelTime,
   Op.launchKernel ⟨⟨8, 0⟩, 0, 0, ⟨8, 500000000⟩⟩ 7 1 [10] [1],
   Op.release (fun _ => CL_SUCCESS),
   Op.freeDevice 0 0 0]

/-- A bind over capacity: eleven integer constants. -/
def overCapacityBind : List Op :=
  [Op.setupKernel answersOk "relax" "relax" 11 elevenConstsList]

/-! # Properties -/

/-! ## Result sync (`runKernel`) -/

theorem emit_trace (s : State) (e : Event) : (s.emit e).trace = s.trace ++ [e] := rfl

theorem runKernel_body_kernel_args (s : State) (i : Nat) :
    (runKernel_body s i).kernel_args = s.kernel_args := by
  unfold runKernel_body dev2hostDoubleArr dev2hostFloatArr State.emit
  split_ifs <;> rfl

theorem runKernel_body_trace (s : State) (i : Nat) :
    (runKernel_body s i).trace = s.trace ++ ((s.kernel_args i).copyBack).toList := by
  unfold runKernel_body kernel_arg.copyBack dev2hostDoubleArr dev2hostFloatArr State.emit
  split_ifs <;> simp

theorem foldl_runKernel_body (l : List Nat) (s : State) :
    (l.foldl runKernel_body s).kernel_args = s.kernel_args ∧
    (l.foldl runKernel_body s).trace =
      s.trace ++ l.filterMap (fun i => (s.kernel_args i).copyBack) := by
  induction l generalizing s with
  | nil => simp
  | cons i l ih =>
    obtain ⟨h1, h2⟩ := ih (runKernel_body s i)
    rw [List.foldl_cons, h1, h2, runKernel_body_kernel_args, runKernel_body_trace]
    refine ⟨rfl, ?_⟩
    cases h : (s.kernel_args i).copyBack <;> simp [List.filterMap_cons, h]

theorem launchKernel_trace (r : LaunchAnswers) (kernel : Nat) (dim : Int) (global loc : List Nat)
    (s : State) :
    (launchKernel r kernel dim global loc s).2.trace =
      s.trace ++ [Event.clEnqueueNDRangeKernel kernel dim global loc, Event.clFinish] := by
  simp [launchKernel, State.emit]

/-- C1: one call of `runKernel` on a table of `n <= MAX_ARG` entries issues
the launch (enqueue, then queue drain) and after it, walking the entries
`0 .. n-1` in increasing index, exactly one device-to-host copy for each entry
tagged `DoubleArr` or `FloatArr`, with that entry's device buffer, host pointer
and element count, and nothing for an entry with any other tag. -/
theorem runKernel_copies_back (r : LaunchAnswers) (kernel : Nat) (dim : Int)
    (global loc : List Nat) (s : State) (n : Nat)
    (hn : s.num_kernel_args = n) (_hmax : n ≤ MAX_ARG) :
    (runKernel r kernel dim global loc s).2.trace =
        s.trace ++ [Event.clEnqueueNDRangeKernel kernel dim global loc, Event.clFinish]
          ++ (List.range n).filterMap (fun i => (s.kernel_args i).copyBack)
      ∧ (∀ e : kernel_arg, e.arg_t = DoubleArr → e.copyBack = some
          (Event.clEnqueueReadBuffer e.dev_buf (size_t_mul 8 (to_size_t e.num_elems)) e.dhost_buf))
      ∧ (∀ e : kernel_arg, e.arg_t = FloatArr → e.copyBack = some
          (Event.clEnqueueReadBuffer e.dev_buf (size_t_mul 4 (to_size_t e.num_elems)) e.host_buf))
      ∧ (∀ e : kernel_arg, e.arg_t ≠ DoubleArr → e.arg_t ≠ FloatArr → e.copyBack = none) := by
  refine ⟨?_, ?_, ?_, ?_⟩
  · have hl : (launchKernel r kernel dim global loc s).2.num_kernel_args = n := by
      simpa [launchKernel, State.emit] using hn
    have hk : (launchKernel r kernel dim global loc s).2.kernel_args = s.kernel_args := by
      simp [launchKernel, State.emit]
    unfold runKernel
    simp only [hl, Int.toNat_ofNat]
    rw [(foldl_runKernel_body _ _).2, launchKernel_trace, hk]
  · intro e h
    simp [kernel_arg.copyBack, h, sizeof_double]
  · intro e h
    have h' : FloatArr ≠ DoubleArr := by decide
    simp [kernel_arg.copyBack, h, h', sizeof_float]
  · intro e h1 h2
    simp [kernel_arg.copyBack, h1, h2]

theorem runKernel_copies_back_witness :
    (runKernel ⟨⟨0, 0⟩, 0, 0, ⟨1, 0⟩⟩ 7 1 [10] [1] table3).2.trace =
        table3.trace ++ [Event.clEnqueueNDRangeKernel 7 1 [10] [1], Event.clFinish]
          ++ (List.range 3).filterMap (fun i => (table3.kernel_args i).copyBack)
      ∧ (∀ e : kernel_arg, e.arg_t = DoubleArr → e.copyBack = some
          (Event.clEnqueueReadBuffer e.dev_buf (size_t_mul 8 (to_size_t e.num_elems)) e.dhost_buf))
      ∧ (∀ e : kernel_arg, e.arg_t = FloatArr → e.copyBack = some
          (Event.clEnqueueReadBuffer e.dev_buf (size_t_mul 4 (to_size_t e.num_elems)) e.host_buf))
      ∧ (∀ e : kernel_arg, e.arg_t ≠ DoubleArr → e.arg_t ≠ FloatArr → e.copyBack = none) :=
  runKernel_copies_back ⟨⟨0, 0⟩, 0, 0, ⟨1, 0⟩⟩ 7 1 [10] [1] table3 3 rfl (by decide)

/-- C5: after a launch whose queue drain fails with `CL_OUT_OF_RESOURCES`
(the status `launchKernel` returns for the same answers), `runKernel` still
returns `CL_SUCCESS`. -/
theorem runKernel_returns_success_after_failed_launch :
    (launchKernel ⟨⟨0, 0⟩, CL_SUCCESS, CL_OUT_OF_RESOURCES, ⟨1, 0⟩⟩ 7 1 [10] [1] table3).1
        = CL_OUT_OF_RESOURCES
      ∧ CL_OUT_OF_RESOURCES ≠ CL_SUCCESS
      ∧ (runKernel ⟨⟨0, 0⟩, CL_SUCCESS, CL_OUT_OF_RESOURCES, ⟨1, 0⟩⟩ 7 1 [10] [1] table3).1
        = CL_SUCCESS := by
  refine ⟨rfl, by decide, rfl⟩

/-! ## Argument binder (`setupKernel`) -/

theorem va_arg_va_start (w : Int) (ws : List Int) (rest : va_list) :
    va_arg (va_start (w :: ws) rest) = (w, va_start ws rest) := rfl

theorem setupKernel_body_descriptor (r : SetupAnswers) (i kernel : Nat) (d : Descriptor)
    (ws : List Int) (rest : va_list) (s : State) :
    setupKernel_body r i kernel (va_start (d.words ++ ws) rest) s =
      (if CL_SUCCESS ≠ r.setKernelArg i then 0 else kernel, va_start ws rest,
        d.bound r kernel i s) := by
  cases d <;>
    simp [setupKernel_body, Descriptor.words, va_arg_va_start, State.store, State.emit,
      allocDev, host2devDoubleArr, host2devFloatArr, Descriptor.bound, Descriptor.entry,
      Descriptor.bindTrace, Descriptor.bindStores, DoubleArr, FloatArr, IntConst]

theorem setupKernel_body_illegal (r : SetupAnswers) (i kernel : Nat) (tag : Int)
    (h0 : tag ≠ DoubleArr) (h1 : tag ≠ FloatArr) (h2 : tag ≠ IntConst)
    (ws : List Int) (rest : va_list) (s : State) :
    setupKernel_body r i kernel (va_start (tag :: ws) rest) s =
      (0, va_start ws rest, s.store i Field.arg_t (fun e => { e with arg_t := tag })) := by
  simp [setupKernel_body, va_arg_va_start, State.store, h0, h1, h2]

theorem setupKernel_body_failing (r : SetupAnswers) (i kernel : Nat) (g : Failing)
    (hg : g.fails r i) (ws : List Int) (rest : va_list) (s : State) :
    setupKernel_body r i kernel (va_start (g.words ++ ws) rest) s =
      (0, va_start ws rest, g.bound r kernel i s) := by
  cases g with
  | rejected d =>
    have h : CL_SUCCESS ≠ r.setKernelArg i := fun h => hg h.symm
    simp [Failing.words, Failing.bound, setupKernel_body_descriptor, h]
  | illegal tag =>
    obtain ⟨h0, h1, h2⟩ := hg
    simpa [Failing.words, Failing.bound] using
      setupKernel_body_illegal r i kernel tag h0 h1 h2 ws rest s

theorem setupKernel_loop_null (r : SetupAnswers) (num_args : Int) (fuel i : Nat) (ap : va_list)
    (s : State) : setupKernel_loop r num_args fuel i 0 ap s = (0, s) := by
  cases fuel <;> simp [setupKernel_loop]

theorem setupKernel_loop_done (r : SetupAnswers) (num_args : Int) (fuel i kernel : Nat)
    (ap : va_list) (s : State) (h : num_args ≤ i) :
    setupKernel_loop r num_args fuel i kernel ap s = (kernel, s) := by
  cases fuel with
  | zero => simp [setupKernel_loop]
  | succ f =>
    have h' : ¬ ((i : Int) < num_args) := by omega
    simp [setupKernel_loop, h']

theorem setupKernel_loop_fuel (r : SetupAnswers) (num_args : Int) (fuel : Nat) :
    ∀ (extra i kernel : Nat) (ap : va_list) (s : State), num_args ≤ (i + fuel : Nat) →
      setupKernel_loop r num_args (fuel + extra) i kernel ap s
        = setupKernel_loop r num_args fuel i kernel ap s := by
  induction fuel with
  | zero =>
    intro extra i kernel ap s h
    rw [setupKernel_loop_done r num_args _ i kernel ap s (by simpa using h),
      setupKernel_loop_done r num_args _ i kernel ap s (by simpa using h)]
  | succ f ih =>
    intro extra i kernel ap s h
    have e : f + 1 + extra = (f + extra) + 1 := by omega
    rw [e, setupKernel_loop, setupKernel_loop]
    split_ifs
    · exact ih extra (i + 1) _ _ _ (by push_cast at h ⊢; omega)
    · rfl

theorem setupKernel_loop_descriptors (r : SetupAnswers) (num_args : Int) (kernel : Nat)
    (hk : kernel ≠ 0) (ds : List Descriptor) :
    ∀ (fuel i : Nat) (ws : List Int) (rest : va_list) (s : State),
      ((i + ds.length : Nat) : Int) ≤ num_args →
      (∀ j, i ≤ j → j < i + ds.length → r.setKernelArg j = CL_SUCCESS) →
      setupKernel_loop r num_args (ds.length + fuel) i kernel
          (va_start (Descriptor.encode ds ++ ws) rest) s =
        setupKernel_loop r num_args fuel (i + ds.length) kernel (va_start ws rest)
          (boundFrom r kernel i ds s) := by
  induction ds with
  | nil => intro fuel i ws rest s _ _; simp [Descriptor.encode, boundFrom]
  | cons d ds ih =>
    intro fuel i ws rest s hlen hok
    have hi : (i : Int) < num_args := by simp only [List.length_cons] at hlen; omega
    have hs : CL_SUCCESS = r.setKernelArg i :=
      (hok i (le_refl i) (by simp)).symm
    have e1 : (d :: ds).length + fuel = (ds.length + fuel) + 1 := by
      simp only [List.length_cons]; omega
    have e2 : Descriptor.encode (d :: ds) ++ ws = d.words ++ (Descriptor.encode ds ++ ws) := by
      simp [Descriptor.encode]
    rw [e1, e2, setupKernel_loop]
    simp only [hi, hk, ne_eq, not_false_eq_true, and_self, if_true, setupKernel_body_descriptor,
      hs, not_true_eq_false, if_false]
    rw [ih fuel (i + 1) ws rest _ (by simp only [List.length_cons] at hlen; push_cast at hlen ⊢; omega)
      (fun j h1 h2 => hok j (by omega) (by simp only [List.length_cons]; omega))]
    simp only [List.length_cons, boundFrom]
    congr 1
    omega

theorem descriptor_bound_fields (r : SetupAnswers) (kernel i : Nat) (d : Descriptor) (s : State) :
    (d.bound r kernel i s).trace = s.trace ++ d.bindTrace r kernel i ∧
    (d.bound r kernel i s).stores = s.stores ++ d.bindStores i ∧
    (d.bound r kernel i s).num_kernel_args = s.num_kernel_args ∧
    (d.bound r kernel i s).kernel_time = s.kernel_time ∧
    (∀ j, j ≠ i → (d.bound r kernel i s).kernel_args j = s.kernel_args j) := by
  refine ⟨rfl, rfl, rfl, rfl, ?_⟩
  intro j hj
  simp [Descriptor.bound, Function.update_noteq hj]

theorem boundFrom_fields (r : SetupAnswers) (kernel : Nat) (ds : List Descriptor) :
    ∀ (i : Nat) (s : State),
      (boundFrom r kernel i ds s).trace = s.trace ++ bindTraceFrom r kernel i ds ∧
      (boundFrom r kernel i ds s).stores = s.stores ++ bindStoresFrom i ds ∧
      (boundFrom r kernel i ds s).num_kernel_args = s.num_kernel_args ∧
      (boundFrom r kernel i ds s).kernel_time = s.kernel_time ∧
      (∀ j, (j < i ∨ i + ds.length ≤ j) → (boundFrom r kernel i ds s).kernel_args j
        = s.kernel_args j) := by
  induction ds with
  | nil => intro i s; simp [boundFrom, bindTraceFrom, bindStoresFrom]
  | cons d ds ih =>
    intro i s
    obtain ⟨h1, h2, h3, h4, h5⟩ := ih (i + 1) (d.bound r kernel i s)
    obtain ⟨b1, b2, b3, b4, b5⟩ := descriptor_bound_fields r kernel i d s
    refine ⟨?_, ?_, ?_, ?_, ?_⟩
    · simp [boundFrom, bindTraceFrom, h1, b1]
    · simp [boundFrom, bindStoresFrom, h2, b2]
    · simp [boundFrom, h3, b3]
    · simp [boundFrom, h4, b4]
    · intro j hj
      simp only [boundFrom]
      rw [h5 j (by simp only [List.length_cons] at hj; omega),
        b5 j (by simp only [List.length_cons] at hj; omega)]

theorem createKernel_fields (r : SetupAnswers) (src name : String) (s : State) :
    (createKernel r src name s).1
        = (if r.createKernel.1 = 0 ∨ r.createKernel.2 ≠ CL_SUCCESS then 0 else r.createKernel.1) ∧
    (createKernel r src name s).2.trace = s.trace ++ createKernelTrace r src name ∧
    (createKernel r src name s).2.stores = s.stores ∧
    (createKernel r src name s).2.kernel_args = s.kernel_args ∧
    (createKernel r src name s).2.kernel_time = s.kernel_time := by
  unfold createKernel createKernelTrace State.emit
  refine ⟨rfl, ?_, ?_, ?_, ?_⟩ <;> split_ifs <;> simp

theorem setupKernel_eq (r : SetupAnswers) (src name : String) (num_args : Int) (ap : va_list)
    (s : State) :
    setupKernel r src name num_args ap s =
      setupKernel_loop r num_args num_args.toNat 0 (createKernel r src name s).1 ap
        { (createKernel r src name s).2 with num_kernel_args := num_args } := rfl

theorem bindTrace_eq_specTrace (r : SetupAnswers) (kernel i : Nat) (d : Descriptor)
    (h1 : d.inRange) (h2 : d.nonneg) : d.bindTrace r kernel i = d.specTrace r kernel i := by
  cases d with
  | doubleArr n p =>
    simp only [Descriptor.inRange, Descriptor.nonneg] at h1 h2
    have e : size_t_mul sizeof_double (to_size_t n) = 8 * n.toNat := by
      simp only [size_t_mul, sizeof_double, to_size_t]; norm_num; omega
    simp [Descriptor.bindTrace, Descriptor.specTrace, e, sizeof_cl_mem]
  | floatArr n p =>
    simp only [Descriptor.inRange, Descriptor.nonneg] at h1 h2
    have e : size_t_mul sizeof_float (to_size_t n) = 4 * n.toNat := by
      simp only [size_t_mul, sizeof_float, to_size_t]; norm_num; omega
    simp [Descriptor.bindTrace, Descriptor.specTrace, e, sizeof_cl_mem]
  | intConst v =>
    simp only [Descriptor.inRange] at h1
    have e : to_unsigned_int (to_int v) = v := by
      simp only [to_unsigned_int, to_int]; norm_num; omega
    simp [Descriptor.bindTrace, Descriptor.specTrace, e, sizeof_unsigned_int]

theorem bindTraceFrom_eq_specTraceFrom (r : SetupAnswers) (kernel : Nat) (ds : List Descriptor)
    (h : ∀ d ∈ ds, d.inRange ∧ d.nonneg) :
    ∀ i, bindTraceFrom r kernel i ds = specTraceFrom r kernel i ds := by
  induction ds with
  | nil => intro i; rfl
  | cons d ds ih =>
    intro i
    have hd := h d (by simp)
    simp only [bindTraceFrom, specTraceFrom]
    rw [bindTrace_eq_specTrace r kernel i d hd.1 hd.2,
      ih (fun d' hd' => h d' (by simp [hd'])) (i + 1)]

theorem specTraceFrom_countP_isAlloc (r : SetupAnswers) (kernel : Nat) (ds : List Descriptor) :
    ∀ i, (specTraceFrom r kernel i ds).countP Event.isAlloc = ds.countP Descriptor.isArr := by
  induction ds with
  | nil => intro i; rfl
  | cons d ds ih =>
    intro i
    simp only [specTraceFrom, List.countP_append, ih (i + 1), List.countP_cons]
    cases d <;> simp [Descriptor.specTrace, Descriptor.isArr, Event.isAlloc, List.countP_cons]
    all_goals omega

theorem createKernelTrace_countP_isAlloc (r : SetupAnswers) (src name : String) :
    (createKernelTrace r src name).countP Event.isAlloc = 0 := by
  unfold createKernelTrace
  split_ifs <;> simp [List.countP_cons, Event.isAlloc]

theorem createKernelTrace_isArgumentCall (r : SetupAnswers) (src name : String) :
    ∀ e ∈ createKernelTrace r src name, e.isArgumentCall = false := by
  unfold createKernelTrace
  split_ifs <;> simp [Event.isArgumentCall]

theorem setupKernel_all_bound (r : SetupAnswers) (src name : String) (ds : List Descriptor)
    (rest : va_list) (s : State)
    (hk1 : r.createKernel.1 ≠ 0) (hk2 : r.createKernel.2 = CL_SUCCESS)
    (hok : ∀ i, i < ds.length → r.setKernelArg i = CL_SUCCESS) :
    setupKernel r src name ds.length (va_start (Descriptor.encode ds) rest) s =
      (r.createKernel.1, boundFrom r r.createKernel.1 0 ds
        { (createKernel r src name s).2 with num_kernel_args := ds.length }) := by
  have hk : (createKernel r src name s).1 = r.createKernel.1 := by
    rw [(createKernel_fields r src name s).1]; simp [hk1, hk2]
  rw [setupKernel_eq, hk, Int.toNat_ofNat]
  have h := setupKernel_loop_descriptors r ds.length r.createKernel.1 hk1 ds 0 0 [] rest
    { (createKernel r src name s).2 with num_kernel_args := ds.length } (by simp)
    (fun j _ hj => hok j (by omega))
  simp only [Nat.add_zero, List.append_nil, Nat.zero_add] at h
  rw [h, setupKernel_loop]

/-- C4: when `0 <= num_args <= MAX_ARG`, the kernel is created and every
`clSetKernelArg` succeeds, `setupKernel` returns the kernel created (not
null) and the calls it issues after those of `createKernel` are, descriptor
by descriptor in order, with descriptor `i` on slot `i`: for `DoubleArr (n, p)`
with `n >= 0` one allocation of `8 * n` bytes, the copy of `8 * n` bytes from
`p` into the buffer allocated, and the bind of that buffer to slot `i`
(`FloatArr` likewise with `4 * n`); for `IntConst (v)` the bind of `v` to slot
`i` alone.  The allocations are as many as the array descriptors. -/
theorem setupKernel_binds_in_order (r : SetupAnswers) (src name : String)
    (ds : List Descriptor) (rest : va_list) (s : State)
    (_hlen : ds.length ≤ MAX_ARG)
    (hk1 : r.createKernel.1 ≠ 0) (hk2 : r.createKernel.2 = CL_SUCCESS)
    (hok : ∀ i, i < ds.length → r.setKernelArg i = CL_SUCCESS)
    (hr : ∀ d ∈ ds, d.inRange ∧ d.nonneg) :
    (setupKernel r src name ds.length (va_start (Descriptor.encode ds) rest) s).1
        = r.createKernel.1
      ∧ (setupKernel r src name ds.length (va_start (Descriptor.encode ds) rest) s).1 ≠ 0
      ∧ (setupKernel r src name ds.length (va_start (Descriptor.encode ds) rest) s).2.trace
        = s.trace ++ createKernelTrace r src name ++ specTraceFrom r r.createKernel.1 0 ds
      ∧ (createKernelTrace r src name ++ specTraceFrom r r.createKernel.1 0 ds).countP
          Event.isAlloc = ds.countP Descriptor.isArr
      ∧ (setupKernel r src name ds.length (va_start (Descriptor.encode ds) rest) s).2.num_kernel_args
        = ds.length := by
  rw [setupKernel_all_bound r src name ds rest s hk1 hk2 hok]
  obtain ⟨h1, _, h3, _, _⟩ := boundFrom_fields r r.createKernel.1 ds 0
    { (createKernel r src name s).2 with num_kernel_args := ds.length }
  refine ⟨rfl, hk1, ?_, ?_, ?_⟩
  · rw [h1, bindTraceFrom_eq_specTraceFrom r _ ds hr 0]
    simp [(createKernel_fields r src name s).2.1]
  · rw [List.countP_append, createKernelTrace_countP_isAlloc, specTraceFrom_countP_isAlloc]
    simp
  · rw [h3]

theorem setupKernel_binds_in_order_witness :
    (setupKernel answersOk "relax" "relax" threeArgs.length
        (va_start (Descriptor.encode threeArgs) (fun _ => 0)) State.init).1 = answersOk.createKernel.1
      ∧ (setupKernel answersOk "relax" "relax" threeArgs.length
        (va_start (Descriptor.encode threeArgs) (fun _ => 0)) State.init).1 ≠ 0
      ∧ (setupKernel answersOk "relax" "relax" threeArgs.length
        (va_start (Descriptor.encode threeArgs) (fun _ => 0)) State.init).2.trace
        = State.init.trace ++ createKernelTrace answersOk "relax" "relax"
          ++ specTraceFrom answersOk answersOk.createKernel.1 0 threeArgs
      ∧ (createKernelTrace answersOk "relax" "relax"
          ++ specTraceFrom answersOk answersOk.createKernel.1 0 threeArgs).countP
          Event.isAlloc = threeArgs.countP Descriptor.isArr
      ∧ (setupKernel answersOk "relax" "relax" threeArgs.length
        (va_start (Descriptor.encode threeArgs) (fun _ => 0)) State.init).2.num_kernel_args
        = threeArgs.length :=
  setupKernel_binds_in_order answersOk "relax" "relax" threeArgs (fun _ => 0) State.init
    (by decide) (by decide) rfl (fun _ _ => rfl)
    (by simp [threeArgs, Descriptor.inRange, Descriptor.nonneg])

theorem failing_bound_fields (r : SetupAnswers) (kernel i : Nat) (g : Failing) (s : State) :
    (g.bound r kernel i s).trace = s.trace ++ g.bindTrace r kernel i ∧
    (g.bound r kernel i s).stores = s.stores ++ g.bindStores i ∧
    (∀ j, j ≠ i → (g.bound r kernel i s).kernel_args j = s.kernel_args j) ∧
    (g.bound r kernel i s).num_kernel_args = s.num_kernel_args ∧
    (g.bound r kernel i s).kernel_time = s.kernel_time := by
  cases g with
  | rejected d =>
    obtain ⟨b1, b2, b3, b4, b5⟩ := descriptor_bound_fields r kernel i d s
    exact ⟨b1, b2, b5, b3, b4⟩
  | illegal tag =>
    refine ⟨by simp [Failing.bound, Failing.bindTrace, State.store], rfl, ?_, rfl, rfl⟩
    intro j hj
    simp [Failing.bound, State.store, Function.update_noteq hj]

theorem setupKernel_failing (r : SetupAnswers) (src name : String) (num_args : Int)
    (ds : List Descriptor) (g : Failing) (rest : va_list) (s : State)
    (hk1 : r.createKernel.1 ≠ 0) (hk2 : r.createKernel.2 = CL_SUCCESS)
    (hi : (ds.length : Int) < num_args)
    (hok : ∀ j, j < ds.length → r.setKernelArg j = CL_SUCCESS)
    (hg : g.fails r ds.length) :
    setupKernel r src name num_args (va_start (Descriptor.encode ds ++ g.words) rest) s =
      (0, g.bound r r.createKernel.1 ds.length (boundFrom r r.createKernel.1 0 ds
        { (createKernel r src name s).2 with num_kernel_args := num_args })) := by
  have hk : (createKernel r src name s).1 = r.createKernel.1 := by
    rw [(createKernel_fields r src name s).1]; simp [hk1, hk2]
  obtain ⟨f, hf⟩ : ∃ f, num_args.toNat = ds.length + (f + 1) :=
    ⟨num_args.toNat - ds.length - 1, by omega⟩
  rw [setupKernel_eq, hk, hf,
    setupKernel_loop_descriptors r num_args r.createKernel.1 hk1 ds (f + 1) 0 g.words rest _
      (by simp; omega) (fun j _ hj => hok j (by omega))]
  have hw : va_start g.words rest = va_start (g.words ++ []) rest := by rw [List.append_nil]
  rw [setupKernel_loop, hw]
  simp only [Nat.zero_add, hi, hk1, ne_eq, not_false_eq_true, and_self, if_true,
    setupKernel_body_failing r ds.length r.createKernel.1 g hg, setupKernel_loop_null]

/-- C3: in a call of `setupKernel` whose kernel was created and whose
descriptors `0 .. i-1` were bound, when the bind of descriptor `i < num_args`
fails (the runtime rejects `clSetKernelArg` for slot `i`, or the tag is none of
`DoubleArr`, `FloatArr`, `IntConst`), `setupKernel` returns a null kernel; the
calls it issued and the table members it assigned are those of the
descriptors `0 .. i` only, no entry of index above `i` has changed, and the
outcome is the same whatever follows descriptor `i` in the argument list, so
nothing after it is read, allocated, transferred or bound. -/
theorem setupKernel_stops_at_failure (r : SetupAnswers) (src name : String) (num_args : Int)
    (ds : List Descriptor) (g : Failing) (rest : va_list) (s : State)
    (hk1 : r.createKernel.1 ≠ 0) (hk2 : r.createKernel.2 = CL_SUCCESS)
    (hi : (ds.length : Int) < num_args)
    (hok : ∀ j, j < ds.length → r.setKernelArg j = CL_SUCCESS)
    (hg : g.fails r ds.length) :
    (setupKernel r src name num_args (va_start (Descriptor.encode ds ++ g.words) rest) s).1 = 0
      ∧ (setupKernel r src name num_args
          (va_start (Descriptor.encode ds ++ g.words) rest) s).2.trace
        = s.trace ++ createKernelTrace r src name ++ bindTraceFrom r r.createKernel.1 0 ds
            ++ g.bindTrace r r.createKernel.1 ds.length
      ∧ (setupKernel r src name num_args
          (va_start (Descriptor.encode ds ++ g.words) rest) s).2.stores
        = s.stores ++ bindStoresFrom 0 ds ++ g.bindStores ds.length
      ∧ (∀ j, ds.length < j →
          (setupKernel r src name num_args
            (va_start (Descriptor.encode ds ++ g.words) rest) s).2.kernel_args j
          = s.kernel_args j)
      ∧ (∀ rest' : va_list,
          setupKernel r src name num_args (va_start (Descriptor.encode ds ++ g.words) rest') s
          = setupKernel r src name num_args
              (va_start (Descriptor.encode ds ++ g.words) rest) s) := by
  have key := fun rest0 => setupKernel_failing r src name num_args ds g rest0 s hk1 hk2 hi hok hg
  obtain ⟨g1, g2, g3, _, _⟩ := failing_bound_fields r r.createKernel.1 ds.length g
    (boundFrom r r.createKernel.1 0 ds
      { (createKernel r src name s).2 with num_kernel_args := num_args })
  obtain ⟨h1, h2, _, _, h5⟩ := boundFrom_fields r r.createKernel.1 ds 0
    { (createKernel r src name s).2 with num_kernel_args := num_args }
  obtain ⟨_, c2, c3, c4, _⟩ := createKernel_fields r src name s
  refine ⟨by rw [key], ?_, ?_, ?_, ?_⟩
  · rw [key, g1, h1]; simp [c2]
  · rw [key, g2, h2]; simp [c3]
  · intro j hj
    rw [key, g3 j (by omega), h5 j (by omega)]
    simp [c4]
  · intro rest'
    rw [key, key]

theorem setupKernel_stops_at_failure_witness :
    (setupKernel answersReject1 "relax" "relax" 3
      (va_start (Descriptor.encode [Descriptor.doubleArr 10 1000]
        ++ (Failing.rejected (Descriptor.doubleArr 10 2000)).words)
        (va_start [IntConst, 10] (fun _ => 0))) State.init).1 = 0 :=
  (setupKernel_stops_at_failure answersReject1 "relax" "relax" 3 [Descriptor.doubleArr 10 1000]
    (Failing.rejected (Descriptor.doubleArr 10 2000)) (va_start [IntConst, 10] (fun _ => 0))
    State.init (by decide) rfl (by decide)
    (fun j hj => by
      have h0 : j = 0 := by simpa using hj
      subst h0; rfl)
    (show answersReject1.setKernelArg 1 ≠ CL_SUCCESS by decide)).1

theorem setupKernel_of_null (r : SetupAnswers) (src name : String) (num_args : Int)
    (ap : va_list) (s : State) (h : (createKernel r src name s).1 = 0) :
    setupKernel r src name num_args ap s =
      (0, { (createKernel r src name s).2 with num_kernel_args := num_args }) := by
  rw [setupKernel_eq, h, setupKernel_loop_null]

theorem va_start_two (ap : va_list) :
    ap = va_start ([ap 0, ap 1] ++ []) (fun k => ap (k + 2)) := by
  funext k
  match k with
  | 0 => rfl
  | 1 => rfl
  | k + 2 => rfl

theorem va_start_three (ap : va_list) :
    ap = va_start ([ap 0, ap 1, ap 2] ++ []) (fun k => ap (k + 3)) := by
  funext k
  match k with
  | 0 => rfl
  | 1 => rfl
  | 2 => rfl
  | k + 3 => rfl

theorem failing_bindStores_index (i : Nat) (g : Failing) : ∀ x ∈ g.bindStores i, x.1 = i := by
  cases g with
  | rejected d => cases d <;> simp [Failing.bindStores, Descriptor.bindStores]
  | illegal tag => simp [Failing.bindStores]

theorem setupKernel_body_cases (r : SetupAnswers) (i kernel : Nat) (ap : va_list) (s : State) :
    ∃ (kernel' : Nat) (ap' : va_list) (g : Failing),
      setupKernel_body r i kernel ap s = (kernel', ap', g.bound r kernel i s) := by
  by_cases h0 : ap 0 = DoubleArr
  · have e := setupKernel_body_descriptor r i kernel (Descriptor.doubleArr (ap 1) (ap 2)) []
      (fun k => ap (k + 3)) s
    rw [Descriptor.words, ← h0, ← va_start_three ap] at e
    exact ⟨_, _, Failing.rejected _, e⟩
  · by_cases h1 : ap 0 = FloatArr
    · have e := setupKernel_body_descriptor r i kernel (Descriptor.floatArr (ap 1) (ap 2)) []
        (fun k => ap (k + 3)) s
      rw [Descriptor.words, ← h1, ← va_start_three ap] at e
      exact ⟨_, _, Failing.rejected _, e⟩
    · by_cases h2 : ap 0 = IntConst
      · have e := setupKernel_body_descriptor r i kernel (Descriptor.intConst (ap 1)) []
          (fun k => ap (k + 2)) s
        rw [Descriptor.words, ← h2, ← va_start_two ap] at e
        exact ⟨_, _, Failing.rejected _, e⟩
      · have e := setupKernel_body_illegal r i kernel (ap 0) h0 h1 h2 [] (fun k => ap (k + 1)) s
        have e' : va_start [ap 0] (fun k => ap (k + 1)) = ap := by
          funext k
          match k with
          | 0 => rfl
          | k + 1 => rfl
        rw [e'] at e
        exact ⟨_, _, Failing.illegal (ap 0), e⟩

theorem setupKernel_body_stores (r : SetupAnswers) (i kernel : Nat) (ap : va_list) (s : State) :
    ∃ l, (setupKernel_body r i kernel ap s).2.2.stores = s.stores ++ l ∧ ∀ x ∈ l, x.1 = i := by
  obtain ⟨k', ap', g, e⟩ := setupKernel_body_cases r i kernel ap s
  rw [e]
  exact ⟨_, (failing_bound_fields r kernel i g s).2.1, failing_bindStores_index i g⟩

theorem setupKernel_body_kernel_time (r : SetupAnswers) (i kernel : Nat) (ap : va_list)
    (s : State) : (setupKernel_body r i kernel ap s).2.2.kernel_time = s.kernel_time := by
  obtain ⟨k', ap', g, e⟩ := setupKernel_body_cases r i kernel ap s
  rw [e]
  exact (failing_bound_fields r kernel i g s).2.2.2.2

theorem setupKernel_loop_stores (r : SetupAnswers) (num_args : Int) (fuel : Nat) :
    ∀ (i kernel : Nat) (ap : va_list) (s : State),
      ∃ l, (setupKernel_loop r num_args fuel i kernel ap s).2.stores = s.stores ++ l ∧
        ∀ x ∈ l, (x.1 : Int) < num_args := by
  induction fuel with
  | zero => intro i kernel ap s; exact ⟨[], by simp [setupKernel_loop], by simp⟩
  | succ f ih =>
    intro i kernel ap s
    rw [setupKernel_loop]
    split_ifs with hc
    · obtain ⟨l1, e1, m1⟩ := setupKernel_body_stores r i kernel ap s
      obtain ⟨l2, e2, m2⟩ := ih (i + 1) (setupKernel_body r i kernel ap s).1
        (setupKernel_body r i kernel ap s).2.1 (setupKernel_body r i kernel ap s).2.2
      refine ⟨l1 ++ l2, ?_, ?_⟩
      · rw [e2, e1, List.append_assoc]
      · intro x hx
        rcases List.mem_append.mp hx with h | h
        · rw [m1 x h]; exact hc.1
        · exact m2 x h
    · exact ⟨[], by simp, by simp⟩

/-- C2 (as amended): `setupKernel` has no check of `num_args` against
`MAX_ARG`.  A call of any arity whose kernel creation fails returns a null
kernel, issues the calls of `createKernel` only (none of which allocates,
transfers or binds) and leaves the table as it was; and in a call with
`num_args <= MAX_ARG` every table member assigned lies at an index below
`num_args`, hence below `MAX_ARG`. -/
theorem setupKernel_capacity (r : SetupAnswers) (src name : String) (num_args : Int)
    (ap : va_list) (s : State) :
    ((createKernel r src name s).1 = 0 →
        (setupKernel r src name num_args ap s).1 = 0
        ∧ (setupKernel r src name num_args ap s).2.trace = s.trace ++ createKernelTrace r src name
        ∧ (∀ e ∈ createKernelTrace r src name, e.isArgumentCall = false)
        ∧ (setupKernel r src name num_args ap s).2.stores = s.stores
        ∧ (setupKernel r src name num_args ap s).2.kernel_args = s.kernel_args)
      ∧ (num_args ≤ MAX_ARG →
        ∃ l, (setupKernel r src name num_args ap s).2.stores = s.stores ++ l
          ∧ ∀ x ∈ l, (x.1 : Int) < num_args ∧ x.1 < MAX_ARG) := by
  obtain ⟨_, c2, c3, c4, _⟩ := createKernel_fields r src name s
  constructor
  · intro h
    rw [setupKernel_of_null r src name num_args ap s h]
    exact ⟨rfl, c2, createKernelTrace_isArgumentCall r src name, c3, c4⟩
  · intro h
    obtain ⟨l, e, m⟩ := setupKernel_loop_stores r num_args num_args.toNat 0
      (createKernel r src name s).1 ap
      { (createKernel r src name s).2 with num_kernel_args := num_args }
    refine ⟨l, ?_, ?_⟩
    · rw [setupKernel_eq, e]; simp [c3]
    · intro x hx
      have := m x hx
      exact ⟨this, by omega⟩

theorem setupKernel_capacity_witness :
    (setupKernel answersBuildFails "relax" "relax" 11 elevenConstsList State.init).1 = 0
      ∧ ∃ l, (setupKernel answersOk "relax" "relax" 3 threeArgsList State.init).2.stores
          = State.init.stores ++ l ∧ ∀ x ∈ l, (x.1 : Int) < 3 ∧ x.1 < MAX_ARG :=
  ⟨((setupKernel_capacity answersBuildFails "relax" "relax" 11 elevenConstsList State.init).1
      (by decide)).1,
    (setupKernel_capacity answersOk "relax" "relax" 3 threeArgsList State.init).2 (by decide)⟩

/-- C2 (as stated) fails: with `num_args = 11 > MAX_ARG` and a runtime on
which everything succeeds, `setupKernel` returns the kernel created, has bound
descriptor `0` to slot `0` and has assigned `kernel_args[0]` and, past the end
of the table, `kernel_args[10]`. -/
theorem setupKernel_accepts_eleven_arguments :
    (MAX_ARG : Int) < 11
      ∧ (setupKernel answersOk "relax" "relax" 11 elevenConstsList State.init).1 ≠ 0
      ∧ Event.clSetKernelArg 7 0 4 5 ∈
          (setupKernel answersOk "relax" "relax" 11 elevenConstsList State.init).2.trace
      ∧ (0, Field.arg_t) ∈
          (setupKernel answersOk "relax" "relax" 11 elevenConstsList State.init).2.stores
      ∧ (10, Field.arg_t) ∈
          (setupKernel answersOk "relax" "relax" 11 elevenConstsList State.init).2.stores := by
  decide

theorem setupKernel_loop_kernel_time (r : SetupAnswers) (num_args : Int)
    (_hcap : num_args ≤ MAX_ARG) (fuel : Nat) :
    ∀ (i kernel : Nat) (ap : va_list) (s : State),
      (setupKernel_loop r num_args fuel i kernel ap s).2.kernel_time = s.kernel_time := by
  induction fuel with
  | zero => intro i kernel ap s; rfl
  | succ f ih =>
    intro i kernel ap s
    rw [setupKernel_loop]
    split_ifs
    · rw [ih, setupKernel_body_kernel_time]
    · rfl

theorem setupKernel_kernel_time (r : SetupAnswers) (src name : String) (num_args : Int)
    (hcap : num_args ≤ MAX_ARG) (ap : va_list) (s : State) :
    (setupKernel r src name num_args ap s).2.kernel_time = s.kernel_time := by
  rw [setupKernel_eq, setupKernel_loop_kernel_time r num_args hcap]
  exact (createKernel_fields r src name s).2.2.2.2

theorem initDevice_loop_kernel_time (r : InitAnswers) (devType : Int) (fuel : Nat) :
    ∀ (i : Nat) (err : cl_int) (s : State),
      (initDevice_loop r devType fuel i err s).2.kernel_time = s.kernel_time := by
  induction fuel with
  | zero => intro i err s; rfl
  | succ f ih =>
    intro i err s
    rw [initDevice_loop]
    split_ifs
    · rfl
    · rw [ih]; rfl

theorem initDevice_kernel_time (r : InitAnswers) (devType : Int) (s : State) :
    (initDevice r devType s).2.kernel_time = s.kernel_time := by
  unfold initDevice
  dsimp only
  split_ifs <;> simp [initDevice_loop_kernel_time, State.emit]

theorem foldl_runKernel_body_kernel_time (l : List Nat) (s : State) :
    (l.foldl runKernel_body s).kernel_time = s.kernel_time := by
  induction l generalizing s with
  | nil => rfl
  | cons i l ih =>
    rw [List.foldl_cons, ih]
    unfold runKernel_body dev2hostDoubleArr dev2hostFloatArr State.emit
    split_ifs <;> rfl

theorem foldl_release_body_kernel_time (rel : Nat → cl_int) (l : List Nat) (p : cl_int × State) :
    (l.foldl (release_body rel) p).2.kernel_time = p.2.kernel_time := by
  induction l generalizing p with
  | nil => rfl
  | cons i l ih =>
    rw [List.foldl_cons, ih]
    unfold release_body State.emit
    split_ifs <;> rfl

theorem launchKernel_kernel_time (r : LaunchAnswers) (kernel : Nat) (dim : Int)
    (global loc : List Nat) (s : State) :
    (launchKernel r kernel dim global loc s).2.kernel_time
      = s.kernel_time + duration r.start r.stop := by
  simp [launchKernel, State.emit, duration]

theorem exec_kernel_time (s : State) (op : Op) (hcap : op.withinCapacity = true) :
    (op.exec s).kernel_time = s.kernel_time + (op.dispatchDuration).getD 0 := by
  cases op with
  | initCPU r => simp [Op.exec, Op.dispatchDuration, initCPU, initDevice_kernel_time]
  | initGPU r => simp [Op.exec, Op.dispatchDuration, initGPU, initDevice_kernel_time]
  | maxWorkItems err max dim =>
    simp only [Op.exec, Op.dispatchDuration, maxWorkItems, State.emit]
    split_ifs <;> simp
  | allocDev mem n => simp [Op.exec, Op.dispatchDuration, allocDev, State.emit]
  | host2devDoubleArr a ad n => simp [Op.exec, Op.dispatchDuration, host2devDoubleArr, State.emit]
  | host2devFloatArr a ad n => simp [Op.exec, Op.dispatchDuration, host2devFloatArr, State.emit]
  | dev2hostDoubleArr ad a n => simp [Op.exec, Op.dispatchDuration, dev2hostDoubleArr, State.emit]
  | dev2hostFloatArr ad a n => simp [Op.exec, Op.dispatchDuration, dev2hostFloatArr, State.emit]
  | dev2hostBoolArr ad a n => simp [Op.exec, Op.dispatchDuration, dev2hostBoolArr, State.emit]
  | createKernel r src name =>
    simp [Op.exec, Op.dispatchDuration, (createKernel_fields r src name s).2.2.2.2]
  | setupKernel r src name num_args ap =>
    have h : num_args ≤ MAX_ARG := by simpa [Op.withinCapacity] using hcap
    simp [Op.exec, Op.dispatchDuration, setupKernel_kernel_time r src name num_args h]
  | launchKernel r kernel dim global loc =>
    simp [Op.exec, Op.dispatchDuration, launchKernel_kernel_time]
  | runKernel r kernel dim global loc =>
    simp [Op.exec, Op.dispatchDuration, runKernel, foldl_runKernel_body_kernel_time,
      launchKernel_kernel_time]
  | printKernelTime =>
    simp only [Op.exec, Op.dispatchDuration, printKernelTime, State.emit]
    split_ifs <;> simp
  | release rel => simp [Op.exec, Op.dispatchDuration, release, foldl_release_body_kernel_time]
  | freeDevice r1 r2 r3 => simp [Op.exec, Op.dispatchDuration, freeDevice, State.emit]
  | clPrintDevInfo => simp [Op.exec, Op.dispatchDuration, clPrintDevInfo, State.emit]

theorem execAll_kernel_time (ops : List Op) :
    ∀ s : State, ops.all Op.withinCapacity = true →
      (execAll s ops).kernel_time
        = s.kernel_time + (ops.filterMap Op.dispatchDuration).sum := by
  induction ops with
  | nil => intro s _; simp [execAll]
  | cons op ops ih =>
    intro s hcap
    simp only [List.all_cons, Bool.and_eq_true] at hcap
    have h := ih (op.exec s) hcap.2
    simp only [execAll, List.foldl_cons] at h ⊢
    rw [h, exec_kernel_time s op hcap.1]
    cases hd : op.dispatchDuration <;> simp [List.filterMap_cons, hd, add_assoc]

theorem initDevice_loop_stores (r : InitAnswers) (devType : Int) (fuel : Nat) :
    ∀ (i : Nat) (err : cl_int) (s : State),
      (initDevice_loop r devType fuel i err s).2.stores = s.stores := by
  induction fuel with
  | zero => intro i err s; rfl
  | succ f ih =>
    intro i err s
    rw [initDevice_loop]
    split_ifs
    · rfl
    · rw [ih]; rfl

theorem initDevice_stores (r : InitAnswers) (devType : Int) (s : State) :
    (initDevice r devType s).2.stores = s.stores := by
  unfold initDevice
  dsimp only
  split_ifs <;> simp [initDevice_loop_stores, State.emit]

theorem foldl_runKernel_body_stores (l : List Nat) (s : State) :
    (l.foldl runKernel_body s).stores = s.stores := by
  induction l generalizing s with
  | nil => rfl
  | cons i l ih =>
    rw [List.foldl_cons, ih]
    unfold runKernel_body dev2hostDoubleArr dev2hostFloatArr State.emit
    split_ifs <;> rfl

theorem foldl_release_body_stores (rel : Nat → cl_int) (l : List Nat) (p : cl_int × State) :
    (l.foldl (release_body rel) p).2.stores = p.2.stores := by
  induction l generalizing p with
  | nil => rfl
  | cons i l ih =>
    rw [List.foldl_cons, ih]
    unfold release_body State.emit
    split_ifs <;> rfl

theorem setupKernel_stores (r : SetupAnswers) (src name : String) (num_args : Int)
    (hcap : num_args ≤ MAX_ARG) (ap : va_list) (s : State) :
    ∃ l, (setupKernel r src name num_args ap s).2.stores = s.stores ++ l
      ∧ ∀ x ∈ l, x.1 < MAX_ARG := by
  obtain ⟨l, e, m⟩ := setupKernel_loop_stores r num_args num_args.toNat 0
    (createKernel r src name s).1 ap
    { (createKernel r src name s).2 with num_kernel_args := num_args }
  refine ⟨l, ?_, ?_⟩
  · rw [setupKernel_eq, e]
    simp [(createKernel_fields r src name s).2.2.1]
  · intro x hx
    have := m x hx
    omega

theorem exec_stores (s : State) (op : Op) (hcap : op.withinCapacity = true) :
    ∃ l, (op.exec s).stores = s.stores ++ l ∧ ∀ x ∈ l, x.1 < MAX_ARG := by
  cases op with
  | setupKernel r src name num_args ap =>
    have h : num_args ≤ MAX_ARG := by simpa [Op.withinCapacity] using hcap
    exact setupKernel_stores r src name num_args h ap s
  | initCPU r => exact ⟨[], by simp [Op.exec, initCPU, initDevice_stores], by simp⟩
  | initGPU r => exact ⟨[], by simp [Op.exec, initGPU, initDevice_stores], by simp⟩
  | maxWorkItems err max dim =>
    refine ⟨[], ?_, by simp⟩
    simp only [Op.exec, maxWorkItems, State.emit]
    split_ifs <;> simp
  | allocDev mem n => exact ⟨[], by simp [Op.exec, allocDev, State.emit], by simp⟩
  | host2devDoubleArr a ad n =>
    exact ⟨[], by simp [Op.exec, host2devDoubleArr, State.emit], by simp⟩
  | host2devFloatArr a ad n =>
    exact ⟨[], by simp [Op.exec, host2devFloatArr, State.emit], by simp⟩
  | dev2hostDoubleArr ad a n =>
    exact ⟨[], by simp [Op.exec, dev2hostDoubleArr, State.emit], by simp⟩
  | dev2hostFloatArr ad a n =>
    exact ⟨[], by simp [Op.exec, dev2hostFloatArr, State.emit], by simp⟩
  | dev2hostBoolArr ad a n =>
    exact ⟨[], by simp [Op.exec, dev2hostBoolArr, State.emit], by simp⟩
  | createKernel r src name =>
    exact ⟨[], by simp [Op.exec, (createKernel_fields r src name s).2.2.1], by simp⟩
  | launchKernel r kernel dim global loc =>
    exact ⟨[], by simp [Op.exec, launchKernel, State.emit], by simp⟩
  | runKernel r kernel dim global loc =>
    exact ⟨[], by simp [Op.exec, runKernel, foldl_runKernel_body_stores, launchKernel,
      State.emit], by simp⟩
  | printKernelTime =>
    refine ⟨[], ?_, by simp⟩
    simp only [Op.exec, printKernelTime, State.emit]
    split_ifs <;> simp
  | release rel =>
    exact ⟨[], by simp [Op.exec, release, foldl_release_body_stores], by simp⟩
  | freeDevice r1 r2 r3 => exact ⟨[], by simp [Op.exec, freeDevice, State.emit], by simp⟩
  | clPrintDevInfo => exact ⟨[], by simp [Op.exec, clPrintDevInfo, State.emit], by simp⟩

theorem execDefined_within_capacity (s : State) (op : Op) (hcap : op.withinCapacity = true) :
    op.execDefined s = some (op.exec s) := by
  obtain ⟨l, e, m⟩ := exec_stores s op hcap
  have h : op.inBounds s = true := by
    unfold Op.inBounds
    rw [e, List.drop_left, List.all_eq_true]
    intro x hx
    simpa using m x hx
  simp [Op.execDefined, h]

theorem execAllDefined_within_capacity (ops : List Op) :
    ∀ s : State, ops.all Op.withinCapacity = true →
      execAllDefined s ops = some (execAll s ops) := by
  induction ops with
  | nil => intro s _; rfl
  | cons op ops ih =>
    intro s hcap
    simp only [List.all_cons, Bool.and_eq_true] at hcap
    rw [execAllDefined, execDefined_within_capacity s op hcap.1, Option.some_bind,
      ih (op.exec s) hcap.2]
    rfl

/-- C6 (as amended): every sequence of harness operations run from the
initial state (`kernel_time = 0`) in which each `setupKernel` keeps to the
capacity of the table (`num_args <= MAX_ARG`) is defined, and its timing
accumulator afterwards is exactly the sum, over the `launchKernel` and
`runKernel` calls of the sequence in order, of
`(stop.sec - start.sec) * 1000 + (stop.nsec - start.nsec) / 1000000` for the
two clock readings of that call; no other operation, and no reading of the
clock of another call, enters the sum. -/
theorem kernel_time_is_sum_within_capacity (ops : List Op)
    (hcap : ops.all Op.withinCapacity = true) :
    ∃ s', execAllDefined State.init ops = some s'
      ∧ s'.kernel_time = (ops.filterMap Op.dispatchDuration).sum := by
  refine ⟨execAll State.init ops, execAllDefined_within_capacity ops State.init hcap, ?_⟩
  rw [execAll_kernel_time ops State.init hcap]
  simp [State.init]

theorem kernel_time_is_sum_within_capacity_witness :
    ∃ s', execAllDefined State.init session = some s'
      ∧ s'.kernel_time = (session.filterMap Op.dispatchDuration).sum :=
  kernel_time_is_sum_within_capacity session (by decide)

/-- C6 (as stated) fails: a `setupKernel` with eleven arguments, on a runtime
on which everything succeeds, stores `kernel_args[10]`, past the end of the
table; the sequence has no defined state afterwards, so no value of the
accumulator, let alone the sum of its dispatch durations, is defined for
it. -/
theorem kernel_time_undefined_over_capacity :
    (10, Field.val) ∈ (execAll State.init overCapacityBind).stores
      ∧ ¬ ∃ s', execAllDefined State.init overCapacityBind = some s'
          ∧ s'.kernel_time = (overCapacityBind.filterMap Op.dispatchDuration).sum := by
  have hb : (Op.setupKernel answersOk "relax" "relax" 11 elevenConstsList).inBounds State.init
      = false := by decide
  refine ⟨by decide, ?_⟩
  rintro ⟨s', h, _⟩
  simp [overCapacityBind, execAllDefined, Op.execDefined, hb] at h

/-! ## Timing report (`printKernelTime`) -/

theorem printKernelTime_fields (s : State) (h0 : 0 ≤ s.kernel_time) :
    ∃ (m c : Int) (msec : ℚ),
      printKernelTime s =
        (if s.kernel_time > 60000 then s.emit (Event.printf (some m) (some c) msec)
         else if s.kernel_time > 1000 then s.emit (Event.printf none (some c) msec)
         else s.emit (Event.printf none none msec))
      ∧ 60000 * (m : ℚ) + 1000 * (c : ℚ) + msec = s.kernel_time
      ∧ 0 ≤ m ∧ 0 ≤ c ∧ c < 60 ∧ 0 ≤ msec ∧ msec < 1000
      ∧ (s.kernel_time < 60000 → m = 0) ∧ (s.kernel_time < 1000 → c = 0) := by
  have hF0 : 0 ≤ ⌊s.kernel_time⌋ := Int.floor_nonneg.mpr h0
  have hFle : (⌊s.kernel_time⌋ : ℚ) ≤ s.kernel_time := Int.floor_le _
  have hFlt : s.kernel_time < ⌊s.kernel_time⌋ + 1 := Int.lt_floor_add_one _
  have hm : (⌊s.kernel_time⌋).tdiv 60000 = ⌊s.kernel_time⌋ / 60000 :=
    Int.tdiv_eq_ediv hF0 (by decide)
  have hm1 : 60000 * (⌊s.kernel_time⌋ / 60000) ≤ ⌊s.kernel_time⌋ := by omega
  have hm2 : ⌊s.kernel_time⌋ < 60000 * (⌊s.kernel_time⌋ / 60000) + 60000 := by omega
  have hm0 : 0 ≤ ⌊s.kernel_time⌋ / 60000 := by omega
  have hq1 : ((60000 * (⌊s.kernel_time⌋ / 60000) : Int) : ℚ) ≤ (⌊s.kernel_time⌋ : ℚ) := by
    exact_mod_cast hm1
  have ht' : 0 ≤ s.kernel_time - (((⌊s.kernel_time⌋ / 60000) * 60000 : Int) : ℚ) := by
    push_cast at hq1 ⊢; linarith
  have hfl : ⌊s.kernel_time - (((⌊s.kernel_time⌋ / 60000) * 60000 : Int) : ℚ)⌋
      = ⌊s.kernel_time⌋ - (⌊s.kernel_time⌋ / 60000) * 60000 := Int.floor_sub_int _ _
  have hF'0 : 0 ≤ ⌊s.kernel_time⌋ - (⌊s.kernel_time⌋ / 60000) * 60000 := by omega
  have hc : (⌊s.kernel_time⌋ - (⌊s.kernel_time⌋ / 60000) * 60000).tdiv 1000
      = (⌊s.kernel_time⌋ - (⌊s.kernel_time⌋ / 60000) * 60000) / 1000 :=
    Int.tdiv_eq_ediv hF'0 (by decide)
  refine ⟨⌊s.kernel_time⌋ / 60000,
    (⌊s.kernel_time⌋ - (⌊s.kernel_time⌋ / 60000) * 60000) / 1000,
    s.kernel_time - (((⌊s.kernel_time⌋ / 60000) * 60000 : Int) : ℚ)
      - ((((⌊s.kernel_time⌋ - (⌊s.kernel_time⌋ / 60000) * 60000) / 1000) * 1000 : Int) : ℚ),
    ?_, ?_, hm0, by omega, by omega, ?_, ?_, ?_, ?_⟩
  · unfold printKernelTime
    simp only [h0, if_true, hm, ht', hfl, hc]
  · push_cast; ring
  · have : (((⌊s.kernel_time⌋ - (⌊s.kernel_time⌋ / 60000) * 60000) / 1000 * 1000 : Int) : ℚ)
        ≤ ((⌊s.kernel_time⌋ - (⌊s.kernel_time⌋ / 60000) * 60000 : Int) : ℚ) := by
      exact_mod_cast (by omega : (⌊s.kernel_time⌋ - (⌊s.kernel_time⌋ / 60000) * 60000) / 1000 * 1000
        ≤ ⌊s.kernel_time⌋ - (⌊s.kernel_time⌋ / 60000) * 60000)
    push_cast at this ⊢; linarith
  · have : ((⌊s.kernel_time⌋ - (⌊s.kernel_time⌋ / 60000) * 60000 : Int) : ℚ) + 1
        ≤ (((⌊s.kernel_time⌋ - (⌊s.kernel_time⌋ / 60000) * 60000) / 1000 * 1000 + 1000 : Int) : ℚ) := by
      exact_mod_cast (by omega : ⌊s.kernel_time⌋ - (⌊s.kernel_time⌋ / 60000) * 60000 + 1
        ≤ (⌊s.kernel_time⌋ - (⌊s.kernel_time⌋ / 60000) * 60000) / 1000 * 1000 + 1000)
    push_cast at this ⊢; linarith
  · intro h
    have : ⌊s.kernel_time⌋ < 60000 := by
      have : (⌊s.kernel_time⌋ : ℚ) < 60000 := lt_of_le_of_lt hFle h
      exact_mod_cast this
    omega
  · intro h
    have : ⌊s.kernel_time⌋ < 1000 := by
      have : (⌊s.kernel_time⌋ : ℚ) < 1000 := lt_of_le_of_lt hFle h
      exact_mod_cast this
    omega

theorem printKernelTime_total_off_boundary (s : State) (h0 : 0 ≤ s.kernel_time)
    (h1 : s.kernel_time ≠ 1000) (h2 : s.kernel_time ≠ 60000) :
    ∃ e, (printKernelTime s).trace = s.trace ++ [e] ∧ e.printedTotal = s.kernel_time := by
  obtain ⟨m, c, msec, hp, hsum, _, _, _, _, _, hm, hc⟩ := printKernelTime_fields s h0
  rw [hp]
  split_ifs with c1 c2
  · exact ⟨_, rfl, by simpa [Event.printedTotal] using hsum⟩
  · have hlt : s.kernel_time < 60000 := lt_of_le_of_ne (not_lt.mp c1) h2
    have hm0 := hm hlt
    subst hm0
    refine ⟨_, rfl, ?_⟩
    simp only [Event.printedTotal, Option.getD_none, Option.getD_some]
    push_cast at hsum ⊢
    linarith
  · have hlt : s.kernel_time < 1000 := lt_of_le_of_ne (not_lt.mp c2) h1
    have hm0 := hm (by linarith)
    have hc0 := hc hlt
    subst hm0 hc0
    refine ⟨_, rfl, ?_⟩
    simp only [Event.printedTotal, Option.getD_none]
    push_cast at hsum ⊢
    linarith

/-- C9: for an accumulator of exactly `1000` ms (here: one launch that took
one second), `printKernelTime` takes the milliseconds-only branch
(`kernel_time > 1000` is false) and prints `msec = 0`, the second that `sec`
holds being left out; for exactly `60000` ms it takes the seconds branch and
prints `0 sec 0 msec`, the minute being left out.  The printed fields add up
to `0`, not to the accumulator. -/
theorem printKernelTime_drops_boundary_unit :
    (execAll State.init [Op.launchKernel ⟨⟨5, 0⟩, 0, 0, ⟨6, 0⟩⟩ 7 1 [10] [1]]).kernel_time = 1000
      ∧ (printKernelTime { State.init with kernel_time := 1000 }).trace
          = [Event.printf none none 0]
      ∧ (Event.printf none none 0).printedTotal ≠ 1000
      ∧ (printKernelTime { State.init with kernel_time := 60000 }).trace
          = [Event.printf none (some 0) 0]
      ∧ (Event.printf none (some 0) 0).printedTotal ≠ 60000 := by
  decide!

/-! ## The relaxation loop -/

theorem at_map_range (f : Nat → ℚ) (n i : Nat) :
    at_ ((List.range n).map f) i = if i < n then f i else 0 := by
  unfold at_
  split_ifs with h
  · simp [List.getD_eq_getElem?_getD, List.getElem?_map, List.getElem?_range h]
  · simp [List.getD_eq_getElem?_getD, List.getElem?_map, List.getElem?_eq_none, Nat.le_of_not_lt h]

theorem init_nonIncreasing (heat : ℚ) (n : Nat) (hheat : 0 ≤ heat) :
    NonIncreasing (init heat n) n := by
  intro i hi
  unfold init
  rw [at_map_range, at_map_range]
  have hi' : i < n := by omega
  simp only [hi, hi', if_true, Nat.succ_ne_zero, if_false]
  split_ifs <;> simp [hheat]

theorem relax_nonIncreasing (v : List ℚ) (eps : ℚ) (n : Nat) (h : NonIncreasing v n) :
    NonIncreasing (relax v eps n).1 n := by
  intro i hi
  have hi' : i < n := by omega
  simp only [relax, at_map_range, hi, hi', if_true]
  cases i with
  | zero =>
    have h0 := h 0 hi
    unfold relax_out
    split_ifs with c1 c2 c2
    · omega
    · have h1 := h 1 (by omega)
      simp only [Nat.zero_add, Nat.add_sub_cancel] at *
      norm_num at *
      linarith
    · omega
    · exact h0
  | succ j =>
    have hj := h j (by omega)
    have hj1 := h (j + 1) hi
    unfold relax_out
    split_ifs with c1 c2 c2
    · have hj2 := h (j + 2) (by omega)
      simp only [Nat.add_sub_cancel] at *
      norm_num at *
      linarith
    · exact absurd ⟨Nat.succ_pos j, by omega⟩ c2
    · simp only [Nat.add_sub_cancel] at *
      norm_num at *
      linarith
    · exact absurd ⟨Nat.succ_pos j, by omega⟩ c2

/-- C8: for every length `n >= 1`, every `HEAT >= 0` and every number `k` of
relax steps applied in exact arithmetic to the vector `init` produces, the
vector is non-increasing from the fixed boundary inward: `v[i] >= v[i+1]`
whenever `i + 1 < n`. -/
theorem relax_iterate_nonIncreasing (n : Nat) (heat eps : ℚ) (k : Nat)
    (_hn : 1 ≤ n) (hheat : 0 ≤ heat) :
    NonIncreasing ((fun v => (relax v eps n).1)^[k] (init heat n)) n := by
  induction k with
  | zero => exact init_nonIncreasing heat n hheat
  | succ k ih =>
    rw [Function.iterate_succ_apply']
    exact relax_nonIncreasing _ eps n ih

theorem relax_iterate_nonIncreasing_witness :
    NonIncreasing ((fun v => (relax v EPS 10).1)^[97] (init HEAT 10)) 10 :=
  relax_iterate_nonIncreasing 10 HEAT EPS 97 (by decide) (by decide!)

/-! ## Dispatch status (`launchKernel`) -/

theorem launchKernel_status (r : LaunchAnswers) (kernel : Nat) (dim : Int) (global loc : List Nat)
    (s : State) : (launchKernel r kernel dim global loc s).1 = r.finish := rfl

/-- C12: when `clEnqueueNDRangeKernel` fails (here with
`CL_INVALID_WORK_GROUP_SIZE`, a global size of 10 under a local size of 32)
and the queue drain that follows succeeds, `launchKernel` returns
`CL_SUCCESS`: the status of the enqueue is compared and reported but never
stored in `err`. -/
theorem launchKernel_returns_success_after_failed_enqueue :
    CL_INVALID_WORK_GROUP_SIZE ≠ CL_SUCCESS
      ∧ (launchKernel ⟨⟨0, 0⟩, CL_INVALID_WORK_GROUP_SIZE, CL_SUCCESS, ⟨1, 0⟩⟩ 7 1 [10] [32]
          State.init).1 = CL_SUCCESS := by
  refine ⟨by decide, rfl⟩

/-! ## Buffer release (`release`) -/

theorem release_body_fields (rel : Nat → cl_int) (p : cl_int × State) (i : Nat) :
    (release_body rel p i).2.kernel_args = p.2.kernel_args ∧
    (release_body rel p i).2.num_kernel_args = p.2.num_kernel_args ∧
    (release_body rel p i).2.trace = p.2.trace ++ ((p.2.kernel_args i).releaseCall).toList ∧
    (release_body rel p i).1 = if (p.2.kernel_args i).isArr then rel i else p.1 := by
  by_cases h : (p.2.kernel_args i).arg_t = FloatArr ∨ (p.2.kernel_args i).arg_t = DoubleArr <;>
    simp [release_body, kernel_arg.releaseCall, kernel_arg.isArr, State.emit, h]

theorem foldl_release_body (rel : Nat → cl_int) (l : List Nat) :
    ∀ p : cl_int × State,
      (l.foldl (release_body rel) p).2.kernel_args = p.2.kernel_args ∧
      (l.foldl (release_body rel) p).2.num_kernel_args = p.2.num_kernel_args ∧
      (l.foldl (release_body rel) p).2.trace
        = p.2.trace ++ l.filterMap (fun i => (p.2.kernel_args i).releaseCall) ∧
      (l.foldl (release_body rel) p).1
        = (((l.filter (fun i => (p.2.kernel_args i).isArr)).getLast?).map rel).getD p.1 := by
  induction l with
  | nil => intro p; simp
  | cons i l ih =>
    intro p
    obtain ⟨h1, h2, h3, h4⟩ := ih (release_body rel p i)
    obtain ⟨b1, b2, b3, b4⟩ := release_body_fields rel p i
    rw [List.foldl_cons, h1, h2, h3, h4, b1, b2, b3, b4]
    refine ⟨rfl, rfl, ?_, ?_⟩
    · cases h : (p.2.kernel_args i).releaseCall <;> simp [List.filterMap_cons, h]
    · by_cases ha : (p.2.kernel_args i).isArr = true
      · simp only [ha, if_true, List.filter_cons_of_pos]
        cases hl : (l.filter (fun i => (p.2.kernel_args i).isArr)) with
        | nil => simp
        | cons j t =>
          rcases hx : (j :: t).getLast? with _ | x
          · simp at hx
          · simp [List.filter_cons, ha, hl, hx]
      · simp [ha]

/-- C11 (as amended): `release` never changes the table, so every call issues
the same calls: one `clReleaseMemObject` for each entry tagged `FloatArr` or
`DoubleArr` among `0 .. num_kernel_args - 1`, in index order; a second call in
a row issues them again.  Each call returns the status of its last release,
and `CL_SUCCESS` when it has none to issue; on a table without array entries
(the empty table among them) `release` issues nothing and returns
`CL_SUCCESS`. -/
theorem release_repeats (rel rel' : Nat → cl_int) (s : State) :
    (release rel s).2.kernel_args = s.kernel_args
      ∧ (release rel s).2.num_kernel_args = s.num_kernel_args
      ∧ (release rel s).2.trace = s.trace ++ s.releaseCalls
      ∧ (release rel' (release rel s).2).2.trace = s.trace ++ s.releaseCalls ++ s.releaseCalls
      ∧ (release rel s).1 = (s.lastArr.map rel).getD CL_SUCCESS
      ∧ (release rel' (release rel s).2).1 = (s.lastArr.map rel').getD CL_SUCCESS
      ∧ ((∀ i : Nat, (i : Int) < s.num_kernel_args → (s.kernel_args i).isArr = false) →
          (release rel s).2.trace = s.trace ∧ (release rel s).1 = CL_SUCCESS) := by
  obtain ⟨a1, a2, a3, a4⟩ :=
    foldl_release_body rel (List.range s.num_kernel_args.toNat) (CL_SUCCESS, s)
  have e1 : (release rel s).2.kernel_args = s.kernel_args := a1
  have e2 : (release rel s).2.num_kernel_args = s.num_kernel_args := a2
  have e3 : (release rel s).2.trace = s.trace ++ s.releaseCalls := a3
  have e4 : (release rel s).1 = (s.lastArr.map rel).getD CL_SUCCESS := a4
  obtain ⟨_, _, b3, b4⟩ :=
    foldl_release_body rel' (List.range (release rel s).2.num_kernel_args.toNat)
      (CL_SUCCESS, (release rel s).2)
  refine ⟨e1, e2, e3, ?_, e4, ?_, ?_⟩
  · have b3' : (release rel' (release rel s).2).2.trace
        = (release rel s).2.trace ++ (release rel s).2.releaseCalls := b3
    rw [b3', e3]
    simp only [State.releaseCalls, e1, e2]
  · have b4' : (release rel' (release rel s).2).1
        = ((release rel s).2.lastArr.map rel').getD CL_SUCCESS := b4
    rw [b4']
    simp only [State.lastArr, e1, e2]
  · intro h
    have hf : (List.range s.num_kernel_args.toNat).filter (fun i => (s.kernel_args i).isArr)
        = [] := by
      rw [List.filter_eq_nil_iff]
      intro i hi
      have hi' : i < s.num_kernel_args.toNat := List.mem_range.mp hi
      simp [h i (by omega)]
    have hm : s.releaseCalls = [] := by
      unfold State.releaseCalls
      rw [List.filterMap_eq_nil_iff]
      intro i hi
      have hi' : i < s.num_kernel_args.toNat := List.mem_range.mp hi
      have hi'' := h i (by omega)
      simp only [kernel_arg.isArr, decide_eq_false_iff_not] at hi''
      simp [kernel_arg.releaseCall, hi'']
    refine ⟨by rw [e3, hm, List.append_nil], ?_⟩
    rw [e4, State.lastArr, hf]
    rfl

theorem release_repeats_witness :
    (release (fun _ => CL_INVALID_MEM_OBJECT) State.init).2.trace = State.init.trace
      ∧ (release (fun _ => CL_INVALID_MEM_OBJECT) State.init).1 = CL_SUCCESS :=
  (release_repeats (fun _ => CL_INVALID_MEM_OBJECT) (fun _ => CL_INVALID_MEM_OBJECT)
    State.init).2.2.2.2.2.2 (fun i hi => absurd hi (by simp [State.init]))

/-- C11 (as stated) fails: on a table with a double array (buffer `11`) and a
float array (buffer `12`), a first `release` releases both and a second
`release` right after it releases both again; with the runtime answering
`CL_INVALID_MEM_OBJECT` for a buffer already released, the second call
returns that status. -/
theorem release_twice_releases_again :
    (release (fun _ => CL_SUCCESS) table3).2.trace
        = [Event.clReleaseMemObject 11, Event.clReleaseMemObject 12]
      ∧ (release (fun _ => CL_INVALID_MEM_OBJECT) (release (fun _ => CL_SUCCESS) table3).2).2.trace
        = [Event.clReleaseMemObject 11, Event.clReleaseMemObject 12,
            Event.clReleaseMemObject 11, Event.clReleaseMemObject 12]
      ∧ (release (fun _ => CL_INVALID_MEM_OBJECT) (release (fun _ => CL_SUCCESS) table3).2).1
        = CL_INVALID_MEM_OBJECT
      ∧ CL_INVALID_MEM_OBJECT ≠ CL_SUCCESS := by
  decide

/-! ## Table contents after a bind -/

theorem entry_consumed (r : SetupAnswers) (i : Nat) (e : kernel_arg) (d : Descriptor) :
    (d.entry r i e).consumed = d.consumed r i := by
  cases d <;>
    simp [Descriptor.entry, kernel_arg.consumed, Descriptor.consumed, DoubleArr, FloatArr,
      IntConst]

theorem consumed_determines_calls (e e' : kernel_arg) (h : e.consumed = e'.consumed) :
    e.copyBack = e'.copyBack ∧ e.releaseCall = e'.releaseCall := by
  unfold kernel_arg.consumed at h
  unfold kernel_arg.copyBack kernel_arg.releaseCall
  split_ifs at h ⊢ <;> simp_all [Prod.ext_iff]

theorem boundFrom_kernel_args (r : SetupAnswers) (kernel : Nat) (ds : List Descriptor) :
    ∀ (i : Nat) (s : State) (j : Nat) (d : Descriptor), ds[j]? = some d →
      (boundFrom r kernel i ds s).kernel_args (i + j)
        = d.entry r (i + j) (s.kernel_args (i + j)) := by
  induction ds with
  | nil => intro i s j d h; simp at h
  | cons d0 ds ih =>
    intro i s j d h
    cases j with
    | zero =>
      simp only [List.getElem?_cons_zero, Option.some.injEq] at h
      subst h
      simp only [boundFrom, Nat.add_zero]
      rw [(boundFrom_fields r kernel ds (i + 1) (d0.bound r kernel i s)).2.2.2.2 i
          (Or.inl (Nat.lt_succ_self i))]
      simp [Descriptor.bound]
    | succ j =>
      simp only [List.getElem?_cons_succ] at h
      have e := ih (i + 1) (d0.bound r kernel i s) j d h
      have hne : i + 1 + j ≠ i := by omega
      rw [(descriptor_bound_fields r kernel i d0 s).2.2.2.2 (i + 1 + j) hne] at e
      have ei : i + (j + 1) = i + 1 + j := by omega
      rw [boundFrom, ei, e]

/-- C13 (as amended): after a `setupKernel` call with `num_args <= MAX_ARG` in
which the kernel is created and every bind succeeds, `num_kernel_args` is
`num_args`, the table members assigned are those of this call's descriptors
`0 .. num_args - 1` in order, and every entry below `num_kernel_args` holds,
in all that `runKernel` and `release` read of it (the tag and, under an array
tag, device buffer, host pointer and element count), what this call wrote
from the descriptor of the same index; what the two functions issue for an
entry depends on nothing else. -/
theorem setupKernel_rewrites_table_on_success (r : SetupAnswers) (src name : String)
    (ds : List Descriptor) (rest : va_list) (s : State)
    (_hlen : ds.length ≤ MAX_ARG)
    (hk1 : r.createKernel.1 ≠ 0) (hk2 : r.createKernel.2 = CL_SUCCESS)
    (hok : ∀ i, i < ds.length → r.setKernelArg i = CL_SUCCESS) :
    (setupKernel r src name ds.length (va_start (Descriptor.encode ds) rest) s).2.num_kernel_args
        = ds.length
      ∧ (setupKernel r src name ds.length (va_start (Descriptor.encode ds) rest) s).2.stores
        = s.stores ++ bindStoresFrom 0 ds
      ∧ (∀ (i : Nat) (d : Descriptor), ds[i]? = some d →
          ((setupKernel r src name ds.length
            (va_start (Descriptor.encode ds) rest) s).2.kernel_args i).consumed = d.consumed r i)
      ∧ (∀ e e' : kernel_arg, e.consumed = e'.consumed →
          e.copyBack = e'.copyBack ∧ e.releaseCall = e'.releaseCall) := by
  rw [setupKernel_all_bound r src name ds rest s hk1 hk2 hok]
  obtain ⟨_, h2, h3, _, _⟩ := boundFrom_fields r r.createKernel.1 ds 0
    { (createKernel r src name s).2 with num_kernel_args := ds.length }
  refine ⟨by rw [h3], ?_, ?_, consumed_determines_calls⟩
  · rw [h2]
    simp [(createKernel_fields r src name s).2.2.1]
  · intro i d hd
    have e := boundFrom_kernel_args r r.createKernel.1 ds 0
      { (createKernel r src name s).2 with num_kernel_args := ds.length } i d hd
    rw [Nat.zero_add] at e
    show (kernel_arg.consumed (State.kernel_args _ i)) = _
    rw [e, entry_consumed]

theorem setupKernel_rewrites_table_on_success_witness :
    (setupKernel answersOk "relax" "relax" threeArgs.length
        (va_start (Descriptor.encode threeArgs) (fun _ => 0)) State.init).2.num_kernel_args
        = threeArgs.length
      ∧ (setupKernel answersOk "relax" "relax" threeArgs.length
        (va_start (Descriptor.encode threeArgs) (fun _ => 0)) State.init).2.stores
        = State.init.stores ++ bindStoresFrom 0 threeArgs :=
  ⟨(setupKernel_rewrites_table_on_success answersOk "relax" "relax" threeArgs (fun _ => 0)
      State.init (by decide) (by decide) rfl (fun _ _ => rfl)).1,
    (setupKernel_rewrites_table_on_success answersOk "relax" "relax" threeArgs (fun _ => 0)
      State.init (by decide) (by decide) rfl (fun _ _ => rfl)).2.1⟩

/-- C13 (as stated) fails: after a successful bind of two double arrays and a
constant, a second `setupKernel` with `num_args = 3` whose kernel creation
fails returns a null kernel, sets `num_kernel_args = 3` and assigns no table
member; entry `0`, which the second call's descriptor list gives as an integer
constant, still is the first bind's double array with its buffer `100`, and a
`runKernel` that follows copies that buffer back. -/
theorem setupKernel_failed_bind_leaves_stale_entries :
    failedSecondBind.1 = 0
      ∧ failedSecondBind.2.num_kernel_args = 3
      ∧ failedSecondBind.2.stores = afterFirstBind.stores
      ∧ afterFirstBind.kernel_args 0 = ⟨DoubleArr, 100, 1000, 0, 10, 0⟩
      ∧ failedSecondBind.2.kernel_args 0 = ⟨DoubleArr, 100, 1000, 0, 10, 0⟩
      ∧ (failedSecondBind.2.kernel_args 0).consumed ≠ (Descriptor.intConst 1).consumed answersBuildFails 0
      ∧ Event.clEnqueueReadBuffer 100 80 1000 ∈
          ((runKernel ⟨⟨0, 0⟩, 0, 0, ⟨1, 0⟩⟩ 7 1 [10] [1] failedSecondBind.2).2.trace.drop
            failedSecondBind.2.trace.length) := by
  decide

end HeatDiffusion
